import Mathlib

/-!
# SEEDS Revised command line tool (`src/cli/main.cpp`)

A shallow embedding of `main` of `src/cli/main.cpp`.  The tool parses its
options with boost::program_options, reads one image with OpenCV, drives the
superpixel engine (`SEEDSRevisedMeanPixels`), and writes the selected
renderings.  Everything `main` calls outside of `main.cpp` (the image codec,
the engine, the integrity checker, the renderers) is a collaborator whose
source is not part of `src/`; the embedding takes those as a record of
functions and records every call `main` makes, in order, in a trace.
-/

namespace SeedsCli

/-! ## Single-precision values -/

/-- A finite binary floating-point value `mantissa * 2 ^ exponent`. -/
structure Binary where
  mantissa : Int
  exponent : Int
deriving DecidableEq, Repr

/-- Doubles the numerator until `2 ^ (p - 1) * d ≤ n` (at most `fuel` times),
    counting the exponent down. -/
def scaleUp : Nat → Nat → Nat → Nat → Int → Nat × Int
  | 0, _, n, _, e => (n, e)
  | fuel + 1, p, n, d, e =>
    if n < 2 ^ (p - 1) * d then scaleUp fuel p (2 * n) d (e - 1) else (n, e)

/-- Doubles the denominator until `n < 2 ^ p * d` (at most `fuel` times),
    counting the exponent up. -/
def scaleDown : Nat → Nat → Nat → Nat → Int → Nat × Int
  | 0, _, _, d, e => (d, e)
  | fuel + 1, p, n, d, e =>
    if 2 ^ p * d ≤ n then scaleDown fuel p n (2 * d) (e + 1) else (d, e)

/-- The value of precision `p` nearest to the positive rational `n / d`
    (round to nearest, ties to even), as the conversion of a decimal literal
    to `double` (`p = 53`) or of a `double` to `float` (`p = 24`) computes it
    for values in the normal range; the scaling gives up after 1100
    doublings, beyond the exponent range of either format. -/
def roundNearestEven (p n d : Nat) : Binary :=
  let up := scaleUp 1100 p n d 0
  let down := scaleDown 1100 p up.1 d up.2
  let n1 := up.1
  let d1 := down.1
  let e := down.2
  let q := n1 / d1
  let r := n1 % d1
  let m := if d1 < 2 * r ∨ (2 * r = d1 ∧ q % 2 = 1) then q + 1 else q
  if m = 2 ^ p then ⟨2 ^ (p - 1), e + 1⟩ else ⟨m, e⟩

/-- The `double` denoted by the decimal literal `n / d`. -/
def doubleLiteral (n d : Nat) : Binary :=
  roundNearestEven 53 n d

/-- Conversion of a positive `double` to `float`, as `default_value` of a
    `value<float>()` does with a `double` literal. -/
def toFloat (x : Binary) : Binary :=
  if 0 ≤ x.exponent then roundNearestEven 24 (x.mantissa.toNat * 2 ^ x.exponent.toNat) 1
  else roundNearestEven 24 x.mantissa.toNat (2 ^ (-x.exponent).toNat)

/-- The decimal `m * 10 ^ (-9)` with `m` the integer nearest to `x * 10 ^ 9`
    (ties to even): for `0.1 ≤ x < 1` these are the nine significant digits a
    stream prints for a `float`. -/
def nineDigits (x : Binary) : Nat :=
  let n := x.mantissa.toNat * 10 ^ 9
  let d := 2 ^ (-x.exponent).toNat
  let q := n / d
  let r := n % d
  if d < 2 * r ∨ (2 * r = d ∧ q % 2 = 1) then q + 1 else q

/-- Whether `0 < x`. -/
def Binary.isPositive (x : Binary) : Bool :=
  decide (0 < x.mantissa)

/-- Whether `x ≤ 1`. -/
def Binary.atMostOne (x : Binary) : Bool :=
  decide (x.mantissa ≤ 0) ||
    (decide (x.exponent ≤ 0) && decide (x.mantissa ≤ 2 ^ (-x.exponent).toNat))

/-- The rational number a `Binary` stands for. -/
def Binary.toRat (x : Binary) : ℚ :=
  x.mantissa * (2 : ℚ) ^ x.exponent

/-! ## Command line and `variables_map` -/

/-- The options as given on the command line, after parsing: `none` is an
    option that was left out, a flag is `true` when it is present.  `input`
    is also the one positional argument (line 104).  Parsing itself
    (`command_line_parser`, lines 103-107) is boost's: a command line it
    rejects ends `main` before line 110 and is not a `CommandLine`.  The
    `int` options hold what `lexical_cast<int>` accepted; `main` does no
    arithmetic on them, so they are kept as `Int`. -/
structure CommandLine where
  help : Bool := false
  input : Option String := none
  bins : Option Int := none
  neighborhood : Option Int := none
  confidence : Option Binary := none
  iterations : Option Int := none
  spatialWeight : Option Binary := none
  superpixels : Option Int := none
  verbose : Bool := false
  csv : Bool := false
  contour : Bool := false
  index : Bool := false
  labels : Bool := false
  mean : Bool := false
  output : Option String := none
deriving DecidableEq, Repr

/-- The `variables_map` named `parameters` after `store` and `notify`
    (lines 106-108): an option declared with `default_value` always holds a
    value, `input` has none, and a flag is `true` when `find` locates it. -/
structure VariablesMap where
  help : Bool
  input : Option String
  bins : Int
  neighborhood : Int
  confidence : Binary
  iterations : Int
  spatialWeight : Binary
  superpixels : Int
  verbose : Bool
  csv : Bool
  contour : Bool
  index : Bool
  labels : Bool
  mean : Bool
  output : String
deriving DecidableEq, Repr

/-- Filling `parameters` from the command line with the `default_value`s of
    `options_description` (lines 85-101). -/
def store (cl : CommandLine) : VariablesMap where
  help := cl.help
  input := cl.input
  bins := cl.bins.getD 5
  neighborhood := cl.neighborhood.getD 1
  confidence := cl.confidence.getD (toFloat (doubleLiteral 1 10))
  iterations := cl.iterations.getD 2
  spatialWeight := cl.spatialWeight.getD (toFloat (doubleLiteral 25 100))
  superpixels := cl.superpixels.getD 400
  verbose := cl.verbose
  csv := cl.csv
  contour := cl.contour
  index := cl.index
  labels := cl.labels
  mean := cl.mean
  output := cl.output.getD "output"

/-! ## Collaborators -/

/-- A `cv::Mat` as far as `main` looks at it: `rows`, `cols` and the pixel
    samples. -/
structure Mat where
  rows : Int
  cols : Int
  data : List Int
deriving DecidableEq, Repr

/-- Whether `cv::Mat::empty()` holds: what `cv::imread` returns for a path it
    cannot decode. -/
def Mat.empty (m : Mat) : Bool :=
  decide (m.rows = 0) || decide (m.cols = 0) || m.data.isEmpty

/-- The label map `getLabels()` returns (`int**`): one row of labels per
    image row. -/
abbrev Labels := List (List Int)

/-- Modelled from the spec: the colour-space tag of the engine, declared in
    `SeedsRevised.h`, which is not part of `src/`; `main` only names `BGR`,
    the spec (section 1) lists "BGR, HSV, LAB". -/
inductive ColorSpace where
  | BGR
  | HSV
  | LAB
deriving DecidableEq, Repr

/-- What ends `main` other than a `return`: the `boost::bad_any_cast` that
    `as<T>()` throws on an option without a value, or an exception thrown
    by a collaborator; `main` catches nothing. -/
inductive Exn where
  | badAnyCast
  | thrown (what : String)
deriving DecidableEq, Repr

/-- The lines `main` writes to `std::cout`.  The elapsed time of line 207 is
    measured wall-clock time and is not represented. -/
inductive Message where
  | help
  | superpixelCount (count : Int) (input : String)
  | contourSaved (input stored : String)
  | labelsSaved (input stored : String)
  | meanSaved (input stored : String)
  | indexSaved (input stored : String)
  | secondsNeeded
deriving DecidableEq, Repr

/-- One observable step of `main`: a call of a collaborator with its
    arguments, or a line printed.  `imwrite` also records whether the file
    was written (the call returned `true`). -/
inductive Event where
  | print (message : Message)
  | imread (path : String)
  | construct (image : Mat) (superpixels numberOfBins neighborhoodSize : Int)
      (minimumConfidence spatialWeight : Binary) (tag : ColorSpace)
  | initializeSeeds
  | iterate (iterations : Int)
  | getLabels
  | countSuperpixels (labels : Labels) (rows cols : Int)
  | contourImage (labels : Labels) (image : Mat) (bgr : Int × Int × Int)
  | labelImage (labels : Labels) (image : Mat)
  | meanImage (labels : Labels) (image : Mat)
  | indexImage (labels : Labels) (image : Mat)
  | imwrite (path : String) (image : Mat) (written : Bool)
deriving DecidableEq, Repr

/-- The code `main` calls that is not in `main.cpp`, with `σ` the state of a
    `SEEDSRevisedMeanPixels` object.  The constructor, `initialize`
    (here `initializeSeeds`, the source's name being a keyword of Lean),
    `iterate` and `cv::imwrite` may throw;
    `cv::imread` returns an empty `Mat` instead; `getLabels`, the integrity
    checker and the renderers of `Tools.h` only read the label map (spec
    sections 4.5 and 6).  `filename`, `extension` and `find` are the
    `boost::filesystem::path` and `std::string` members of lines 151-152. -/
structure Collaborators (σ : Type) where
  imread : String → Mat
  construct : Mat → Int → Int → Int → Binary → Binary → ColorSpace → Except Exn σ
  initializeSeeds : σ → Except Exn σ
  iterate : σ → Int → Except Exn σ
  getLabels : σ → Labels
  countSuperpixels : Labels → Int → Int → Int
  contourImage : Labels → Mat → Int × Int × Int → Mat
  labelImage : Labels → Mat → Mat
  meanImage : Labels → Mat → Mat
  indexImage : Labels → Mat → Mat
  imwrite : String → Mat → Except Exn Bool
  filename : String → String
  extension : String → String
  find : String → String → Int

/-! ## Runs -/

/-- A run of a piece of `main`: the events it produced, in order, and how it
    ended: with a value, or with an exception that nothing catches. -/
structure Run (α : Type) where
  result : Except Exn α
  trace : List Event

/-- A run that does nothing and yields `a`. -/
def Run.pure {α : Type} (a : α) : Run α :=
  ⟨.ok a, []⟩

/-- Sequencing: the second piece runs only when the first did not throw. -/
def Run.bind {α β : Type} (x : Run α) (f : α → Run β) : Run β :=
  match x.result with
  | .error e => ⟨.error e, x.trace⟩
  | .ok a => ⟨(f a).result, x.trace ++ (f a).trace⟩

instance : Monad Run where
  pure := Run.pure
  bind := Run.bind

/-- A step that cannot fail. -/
def emit (e : Event) : Run Unit :=
  ⟨.ok (), [e]⟩

/-- A call that returns `a`, recorded as `e`. -/
def call {α : Type} (e : Event) (a : α) : Run α :=
  ⟨.ok a, [e]⟩

/-- A call that returns or throws, recorded as `e`. -/
def callThrowing {α : Type} (e : Event) (r : Except Exn α) : Run α :=
  ⟨r, [e]⟩

/-- The member `as<T>()` of a `variable_value`: the stored value, or
    `bad_any_cast` when the option holds none. -/
def asValue {α : Type} : Option α → Run α
  | some v => Run.pure v
  | none => ⟨.error .badAnyCast, []⟩

/-- The call `cv::imwrite(path, image)`; its `bool` result is what `main`
    discards. -/
def imwrite {σ : Type} (env : Collaborators σ) (path : String) (image : Mat) : Run Bool :=
  callThrowing
    (.imwrite path image (match env.imwrite path image with | .ok b => b | .error _ => false))
    (env.imwrite path image)

/-- The exit status of the process when `main` returned, `none` when it was
    ended by an uncaught exception. -/
def Run.exitStatus (r : Run Int) : Option Int :=
  match r.result with
  | .ok code => some code
  | .error _ => none

/-! ## `main` -/

/-- Lines 149-162: the `contour` branch. -/
def saveContour {σ : Type} (env : Collaborators σ) (parameters : VariablesMap)
    (inputPath outputPath : String) (verbose : Bool) (seeds : σ) (image : Mat) : Run Unit :=
  if parameters.contour then do
    let _extension := env.extension (env.filename inputPath)
    let _position := env.find (env.filename inputPath) (env.extension (env.filename inputPath))
    let stored := outputPath
    let bgr : Int × Int × Int := (0, 0, 204)
    let labels ← call .getLabels (env.getLabels seeds)
    let contourImage ← call (.contourImage labels image bgr) (env.contourImage labels image bgr)
    let _ ← imwrite env stored contourImage
    if verbose then emit (.print (.contourSaved inputPath stored)) else pure ()
  else pure ()

/-- Lines 164-176: the `labels` branch. -/
def saveLabels {σ : Type} (env : Collaborators σ) (parameters : VariablesMap)
    (inputPath outputPath : String) (verbose : Bool) (seeds : σ) (image : Mat) : Run Unit :=
  if parameters.labels then do
    let _extension := env.extension (env.filename inputPath)
    let _position := env.find (env.filename inputPath) (env.extension (env.filename inputPath))
    let stored := outputPath
    let labels ← call .getLabels (env.getLabels seeds)
    let labelImage ← call (.labelImage labels image) (env.labelImage labels image)
    let _ ← imwrite env stored labelImage
    if verbose then emit (.print (.labelsSaved inputPath stored)) else pure ()
  else pure ()

/-- Lines 178-190: the `mean` branch. -/
def saveMean {σ : Type} (env : Collaborators σ) (parameters : VariablesMap)
    (inputPath outputPath : String) (verbose : Bool) (seeds : σ) (image : Mat) : Run Unit :=
  if parameters.mean then do
    let _extension := env.extension inputPath
    let _position := env.find (env.filename inputPath) (env.extension inputPath)
    let stored := outputPath
    let labels ← call .getLabels (env.getLabels seeds)
    let meanImage ← call (.meanImage labels image) (env.meanImage labels image)
    let _ ← imwrite env stored meanImage
    if verbose then emit (.print (.meanSaved inputPath stored)) else pure ()
  else pure ()

/-- Lines 193-204: the `index` branch. -/
def saveIndex {σ : Type} (env : Collaborators σ) (parameters : VariablesMap)
    (inputPath outputPath : String) (verbose : Bool) (seeds : σ) (image : Mat) : Run Unit :=
  if parameters.index then do
    let _extension := env.extension (env.filename inputPath)
    let _position := env.find (env.filename inputPath) (env.extension (env.filename inputPath))
    let stored := outputPath
    let labels ← call .getLabels (env.getLabels seeds)
    let labelImage ← call (.indexImage labels image) (env.indexImage labels image)
    let _ ← imwrite env stored labelImage
    if verbose then emit (.print (.indexSaved inputPath stored)) else pure ()
  else pure ()

/-- Lines 145-147: the superpixel count printed under `verbose`. -/
def reportCount {σ : Type} (env : Collaborators σ) (inputPath : String) (verbose : Bool)
    (seeds : σ) (image : Mat) : Run Unit :=
  if verbose then do
    let labels ← call .getLabels (env.getLabels seeds)
    let count ← call (.countSuperpixels labels image.rows image.cols)
      (env.countSuperpixels labels image.rows image.cols)
    emit (.print (.superpixelCount count inputPath))
  else pure ()

/-- Lines 145-209: what `main` does once `iterate` has returned. -/
def finish {σ : Type} (env : Collaborators σ) (parameters : VariablesMap)
    (inputPath outputPath : String) (verbose : Bool) (seeds : σ) (image : Mat) : Run Int := do
  reportCount env inputPath verbose seeds image
  saveContour env parameters inputPath outputPath verbose seeds image
  saveLabels env parameters inputPath outputPath verbose seeds image
  saveMean env parameters inputPath outputPath verbose seeds image
  saveIndex env parameters inputPath outputPath verbose seeds image
  emit (.print .secondsNeeded)
  pure 0

/-- Lines 115-209: `main` after the help check.  The `boost::timer` of
    lines 132-133, 140 and 143 measures wall-clock time and is left out. -/
def process {σ : Type} (env : Collaborators σ) (parameters : VariablesMap) : Run Int := do
  let outputPath := parameters.output
  let inputPath ← asValue parameters.input
  let verbose := parameters.verbose
  let iterations := parameters.iterations
  let numberOfBins := parameters.bins
  let neighborhoodSize := parameters.neighborhood
  let minimumConfidence := parameters.confidence
  let spatialWeight := parameters.spatialWeight
  let superpixels := parameters.superpixels
  let image ← call (.imread inputPath) (env.imread inputPath)
  let seeds ← callThrowing
    (.construct image superpixels numberOfBins neighborhoodSize minimumConfidence spatialWeight
      .BGR)
    (env.construct image superpixels numberOfBins neighborhoodSize minimumConfidence
      spatialWeight .BGR)
  let seeds ← callThrowing .initializeSeeds (env.initializeSeeds seeds)
  let seeds ← callThrowing (.iterate iterations) (env.iterate seeds iterations)
  finish env parameters inputPath outputPath verbose seeds image

/-- The function `main` of `src/cli/main.cpp` on a parsed command line. -/
def main {σ : Type} (env : Collaborators σ) (cl : CommandLine) : Run Int :=
  let parameters := store cl
  if parameters.help then do
    emit (.print .help)
    pure 1
  else
    process env parameters

/-! ## Reading a trace -/

/-- The calls that drive the engine: constructor, `initialize`, `iterate`. -/
def Event.isDriving : Event → Bool
  | .construct .. => true
  | .initializeSeeds => true
  | .iterate _ => true
  | _ => false

/-- The calls made on the engine object: the driving calls and `getLabels`. -/
def Event.isEngineCall : Event → Bool
  | .getLabels => true
  | e => e.isDriving

/-- Whether the event is a line printed to `std::cout`. -/
def Event.isPrint : Event → Bool
  | .print _ => true
  | _ => false

/-- Whether the event is a call of the engine's constructor. -/
def Event.isConstruct : Event → Bool
  | .construct .. => true
  | _ => false

/-- The engine calls of a trace, in order. -/
def engineCalls (t : List Event) : List Event :=
  t.filter Event.isEngineCall

/-- The driving calls of a trace, in order. -/
def drivingCalls (t : List Event) : List Event :=
  t.filter Event.isDriving

/-- The trace without the lines printed. -/
def silent (t : List Event) : List Event :=
  t.filter (fun e => !e.isPrint)

/-- The path and image of an `imwrite` call. -/
def Event.write? : Event → Option (String × Mat)
  | .imwrite path image _ => some (path, image)
  | _ => none

/-- The image an `imwrite` call left in the file `path`. -/
def Event.writtenTo? (path : String) : Event → Option Mat
  | .imwrite p image true => if p = path then some image else none
  | _ => none

/-- The `imwrite` calls of a trace, in order: path and image of each. -/
def writes (t : List Event) : List (String × Mat) :=
  t.filterMap Event.write?

/-- What the file `path` holds after the trace: the image of the last
    `imwrite` that wrote it, `none` when no call did. -/
def fileAt (t : List Event) (path : String) : Option Mat :=
  (t.filterMap (Event.writtenTo? path)).getLast?

/-- The run of one output branch: selected or not, the outcome `r` of its
    `imwrite`, the renderer call, the path and image written, `verbose` and
    the line printed under it. -/
def branchRun (selected : Bool) (r : Except Exn Bool) (render : Event) (stored : String)
    (image : Mat) (verbose : Bool) (message : Message) : Run Unit :=
  if selected then
    match r with
    | .ok b =>
      ⟨.ok (), [.getLabels, render, .imwrite stored image b] ++
        if verbose then [.print message] else []⟩
    | .error e => ⟨.error e, [.getLabels, render, .imwrite stored image false]⟩
  else ⟨.ok (), []⟩

/-! ## A concrete set of collaborators

The statements below hold for every `Collaborators`.  To evaluate `main` on
examples a small concrete instance is fixed here. -/

/-- State of the sample engine. -/
structure SampleSeeds where
  image : Mat
  superpixels : Int
  labels : Labels
  sweeps : Int
deriving DecidableEq, Repr

/-- A 2×2 image with one sample per pixel. -/
def sampleImage : Mat :=
  ⟨2, 2, [10, 10, 200, 200]⟩

/-- The sample codec: `"image.png"` decodes to `sampleImage`, every other
    path fails to decode and yields the empty `Mat`, as `cv::imread` does. -/
def sampleImread (path : String) : Mat :=
  if path = "image.png" then sampleImage else ⟨0, 0, []⟩

/-- Modelled from the spec: the constructor of the engine, whose source is
    not part of `src/`.  It keeps the failure conditions of spec section 7 (a)
    on the values it receives: "zero or negative bin count, neighborhood
    size, ... or superpixel count; non-positive spatial weight; confidence
    outside (0,1]". -/
def sampleConstruct (image : Mat) (superpixels numberOfBins neighborhoodSize : Int)
    (minimumConfidence spatialWeight : Binary) (_tag : ColorSpace) : Except Exn SampleSeeds :=
  if superpixels ≤ 0 ∨ numberOfBins ≤ 0 ∨ neighborhoodSize ≤ 0 then
    .error (.thrown "configuration error")
  else if !spatialWeight.isPositive then .error (.thrown "configuration error")
  else if !(minimumConfidence.isPositive && minimumConfidence.atMostOne) then
    .error (.thrown "configuration error")
  else .ok ⟨image, superpixels, [], 0⟩

/-- Modelled from the spec: `initialize()` of the engine, whose source is not
    part of `src/`.  Spec section 7 (b): an "empty or zero-dimension pixel
    grid" fails at `initialize()`; otherwise every pixel gets a label (here
    the one label `0`, the refinement being no concern of `main`). -/
def sampleInitialize (s : SampleSeeds) : Except Exn SampleSeeds :=
  if s.image.empty then .error (.thrown "input error")
  else .ok { s with labels := List.replicate s.image.rows.toNat
                                (List.replicate s.image.cols.toNat 0) }

/-- Modelled from the spec: `iterate` of the engine, whose source is not part
    of `src/`.  Spec section 6 gives it a "positive integer"; a count that is
    not positive is rejected here, the passes made are counted otherwise. -/
def sampleIterate (s : SampleSeeds) (iterations : Int) : Except Exn SampleSeeds :=
  if iterations ≤ 0 then .error (.thrown "configuration error")
  else .ok { s with sweeps := s.sweeps + iterations }

/-- The sample collaborators: the sample codec and engine, a count of the
    distinct labels for the integrity checker, renderers that tag a copy of
    the image with `1` to `4`, and an `imwrite` that throws on the empty
    path and writes every other file. -/
def sampleCollaborators : Collaborators SampleSeeds where
  imread := sampleImread
  construct := sampleConstruct
  initializeSeeds := sampleInitialize
  iterate := sampleIterate
  getLabels := fun s => s.labels
  countSuperpixels := fun labels _ _ => labels.flatten.dedup.length
  contourImage := fun _ image _ => { image with data := 1 :: image.data }
  labelImage := fun _ image => { image with data := 2 :: image.data }
  meanImage := fun _ image => { image with data := 3 :: image.data }
  indexImage := fun _ image => { image with data := 4 :: image.data }
  imwrite := fun path _ => if path = "" then .error (.thrown "no writer") else .ok true
  filename := fun path => path
  extension := fun _ => ""
  find := fun _ _ => 0

/-! ## Sequencing lemmas -/

theorem bind_eq {α β : Type} (x : Run α) (f : α → Run β) : x >>= f = Run.bind x f := rfl

theorem pure_eq {α : Type} (a : α) : (pure a : Run α) = ⟨.ok a, []⟩ := rfl

theorem bind_ok {α β : Type} {x : Run α} {a : α} (h : x.result = .ok a) (f : α → Run β) :
    x >>= f = ⟨(f a).result, x.trace ++ (f a).trace⟩ := by
  simp [bind_eq, Run.bind, h]

theorem bind_error {α β : Type} {x : Run α} {e : Exn} (h : x.result = .error e)
    (f : α → Run β) : x >>= f = ⟨.error e, x.trace⟩ := by
  simp [bind_eq, Run.bind, h]

theorem result_bind_ok {α β : Type} {x : Run α} {f : α → Run β} {b : β}
    (h : (x >>= f).result = .ok b) :
    ∃ a, x.result = .ok a ∧ (f a).result = .ok b ∧
      (x >>= f).trace = x.trace ++ (f a).trace := by
  cases hx : x.result with
  | error e => rw [bind_error hx] at h; cases h
  | ok a =>
    rw [bind_ok hx] at h ⊢
    exact ⟨a, rfl, h, rfl⟩

theorem mem_trace_bind {α β : Type} {x : Run α} {f : α → Run β} {e : Event}
    (h : e ∈ (x >>= f).trace) : e ∈ x.trace ∨ ∃ a, x.result = .ok a ∧ e ∈ (f a).trace := by
  cases hx : x.result with
  | error err => rw [bind_error hx] at h; exact Or.inl h
  | ok a =>
    rw [bind_ok hx] at h
    rcases List.mem_append.mp h with h | h
    · exact Or.inl h
    · exact Or.inr ⟨a, rfl, h⟩

/-- Two runs that end alike and look alike under an observation `obs` of the
    trace keep doing so when each is continued by pieces that do. -/
theorem bind_agree {α β γ : Type} (obs : List Event → List γ)
    (hobs : ∀ l₁ l₂, obs (l₁ ++ l₂) = obs l₁ ++ obs l₂)
    {x y : Run α} {f g : α → Run β}
    (hr : x.result = y.result) (ht : obs x.trace = obs y.trace)
    (hf : ∀ a, (f a).result = (g a).result ∧ obs (f a).trace = obs (g a).trace) :
    (x >>= f).result = (y >>= g).result ∧ obs (x >>= f).trace = obs (y >>= g).trace := by
  cases hx : x.result with
  | error e =>
    have hy : y.result = .error e := by rw [← hr, hx]
    rw [bind_error hx, bind_error hy]
    exact ⟨rfl, ht⟩
  | ok a =>
    have hy : y.result = .ok a := by rw [← hr, hx]
    rw [bind_ok hx, bind_ok hy]
    exact ⟨(hf a).1, by simp only [hobs, ht, (hf a).2]⟩

/-! ## The output branches -/

theorem saveContour_eq {σ : Type} (env : Collaborators σ) (parameters : VariablesMap)
    (inputPath outputPath : String) (verbose : Bool) (seeds : σ) (image : Mat) :
    saveContour env parameters inputPath outputPath verbose seeds image =
      branchRun parameters.contour
        (env.imwrite outputPath (env.contourImage (env.getLabels seeds) image (0, 0, 204)))
        (.contourImage (env.getLabels seeds) image (0, 0, 204)) outputPath
        (env.contourImage (env.getLabels seeds) image (0, 0, 204)) verbose
        (.contourSaved inputPath outputPath) := by
  unfold saveContour branchRun
  cases parameters.contour <;> cases verbose <;>
    cases h : env.imwrite outputPath (env.contourImage (env.getLabels seeds) image (0, 0, 204)) <;>
    simp [bind_eq, pure_eq, Run.bind, call, imwrite, callThrowing, emit, h]

theorem saveLabels_eq {σ : Type} (env : Collaborators σ) (parameters : VariablesMap)
    (inputPath outputPath : String) (verbose : Bool) (seeds : σ) (image : Mat) :
    saveLabels env parameters inputPath outputPath verbose seeds image =
      branchRun parameters.labels
        (env.imwrite outputPath (env.labelImage (env.getLabels seeds) image))
        (.labelImage (env.getLabels seeds) image) outputPath
        (env.labelImage (env.getLabels seeds) image) verbose
        (.labelsSaved inputPath outputPath) := by
  unfold saveLabels branchRun
  cases parameters.labels <;> cases verbose <;>
    cases h : env.imwrite outputPath (env.labelImage (env.getLabels seeds) image) <;>
    simp [bind_eq, pure_eq, Run.bind, call, imwrite, callThrowing, emit, h]

theorem saveMean_eq {σ : Type} (env : Collaborators σ) (parameters : VariablesMap)
    (inputPath outputPath : String) (verbose : Bool) (seeds : σ) (image : Mat) :
    saveMean env parameters inputPath outputPath verbose seeds image =
      branchRun parameters.mean
        (env.imwrite outputPath (env.meanImage (env.getLabels seeds) image))
        (.meanImage (env.getLabels seeds) image) outputPath
        (env.meanImage (env.getLabels seeds) image) verbose
        (.meanSaved inputPath outputPath) := by
  unfold saveMean branchRun
  cases parameters.mean <;> cases verbose <;>
    cases h : env.imwrite outputPath (env.meanImage (env.getLabels seeds) image) <;>
    simp [bind_eq, pure_eq, Run.bind, call, imwrite, callThrowing, emit, h]

theorem saveIndex_eq {σ : Type} (env : Collaborators σ) (parameters : VariablesMap)
    (inputPath outputPath : String) (verbose : Bool) (seeds : σ) (image : Mat) :
    saveIndex env parameters inputPath outputPath verbose seeds image =
      branchRun parameters.index
        (env.imwrite outputPath (env.indexImage (env.getLabels seeds) image))
        (.indexImage (env.getLabels seeds) image) outputPath
        (env.indexImage (env.getLabels seeds) image) verbose
        (.indexSaved inputPath outputPath) := by
  unfold saveIndex branchRun
  cases parameters.index <;> cases verbose <;>
    cases h : env.imwrite outputPath (env.indexImage (env.getLabels seeds) image) <;>
    simp [bind_eq, pure_eq, Run.bind, call, imwrite, callThrowing, emit, h]

theorem reportCount_eq {σ : Type} (env : Collaborators σ) (inputPath : String)
    (verbose : Bool) (seeds : σ) (image : Mat) :
    reportCount env inputPath verbose seeds image =
      ⟨.ok (), if verbose then
        [.getLabels, .countSuperpixels (env.getLabels seeds) image.rows image.cols,
          .print (.superpixelCount
            (env.countSuperpixels (env.getLabels seeds) image.rows image.cols) inputPath)]
        else []⟩ := by
  unfold reportCount
  cases verbose <;> simp [bind_eq, pure_eq, Run.bind, call, emit]

theorem branchRun_mem {selected : Bool} {r : Except Exn Bool} {render : Event}
    {stored : String} {image : Mat} {verbose : Bool} {message : Message} {e : Event}
    (h : e ∈ (branchRun selected r render stored image verbose message).trace) :
    e = .getLabels ∨ e = render ∨ (∃ b, e = .imwrite stored image b) ∨ e = .print message := by
  unfold branchRun at h
  cases selected <;> cases verbose <;> cases r <;> simp at h <;> aesop

theorem branchRun_result_ok {selected : Bool} {r : Except Exn Bool} {render : Event}
    {stored : String} {image : Mat} {verbose : Bool} {message : Message}
    (h : (branchRun selected r render stored image verbose message).result = .ok ()) :
    (branchRun selected r render stored image verbose message).trace =
      if selected then
        [.getLabels, render,
          .imwrite stored image (match r with | .ok b => b | .error _ => false)] ++
          if verbose then [.print message] else []
      else [] := by
  unfold branchRun at h ⊢
  cases selected <;> cases r <;> simp at h ⊢

theorem branchRun_result {selected : Bool} {r : Except Exn Bool} {render : Event}
    {stored : String} {image : Mat} {verbose : Bool} {message : Message} :
    (branchRun selected r render stored image verbose message).result =
      if selected then (match r with | .ok _ => .ok () | .error e => .error e) else .ok () := by
  unfold branchRun
  cases selected <;> cases r <;> simp

theorem branchRun_writes {selected : Bool} {r : Except Exn Bool} {render : Event}
    {stored : String} {image : Mat} {verbose : Bool} {message : Message}
    (hrender : render.write? = none) :
    writes (branchRun selected r render stored image verbose message).trace =
      if selected then [(stored, image)] else [] := by
  have h₁ : Event.write? .getLabels = none := rfl
  have h₂ : ∀ b, Event.write? (.imwrite stored image b) = some (stored, image) := fun _ => rfl
  have h₃ : Event.write? (.print message) = none := rfl
  unfold branchRun writes
  cases selected <;> cases verbose <;> cases r <;> simp [h₁, h₂, h₃, hrender]

theorem branchRun_driving {selected : Bool} {r : Except Exn Bool} {render : Event}
    {stored : String} {image : Mat} {verbose : Bool} {message : Message}
    (hrender : render.isDriving = false) :
    drivingCalls (branchRun selected r render stored image verbose message).trace = [] := by
  have h₁ : Event.isDriving .getLabels = false := rfl
  have h₂ : ∀ b, Event.isDriving (.imwrite stored image b) = false := fun _ => rfl
  have h₃ : Event.isDriving (.print message) = false := rfl
  unfold branchRun drivingCalls
  cases selected <;> cases verbose <;> cases r <;> simp [h₁, h₂, h₃, hrender]

/-! ## The shape of a run of `process` -/

theorem process_no_input {σ : Type} (env : Collaborators σ) (parameters : VariablesMap)
    (h : parameters.input = none) :
    process env parameters = ⟨.error .badAnyCast, []⟩ := by
  unfold process
  simp [h, asValue, bind_eq, Run.bind]

theorem process_construct_error {σ : Type} (env : Collaborators σ) (parameters : VariablesMap)
    {inputPath : String} {e : Exn} (h : parameters.input = some inputPath)
    (hc : env.construct (env.imread inputPath) parameters.superpixels parameters.bins
      parameters.neighborhood parameters.confidence parameters.spatialWeight .BGR = .error e) :
    process env parameters = ⟨.error e,
      [.imread inputPath,
        .construct (env.imread inputPath) parameters.superpixels parameters.bins
          parameters.neighborhood parameters.confidence parameters.spatialWeight .BGR]⟩ := by
  unfold process
  simp [h, hc, asValue, bind_eq, Run.bind, Run.pure, call, callThrowing]

theorem process_initialize_error {σ : Type} (env : Collaborators σ)
    (parameters : VariablesMap) {inputPath : String} {e : Exn} {s₀ : σ}
    (h : parameters.input = some inputPath)
    (hc : env.construct (env.imread inputPath) parameters.superpixels parameters.bins
      parameters.neighborhood parameters.confidence parameters.spatialWeight .BGR = .ok s₀)
    (hi : env.initializeSeeds s₀ = .error e) :
    process env parameters = ⟨.error e,
      [.imread inputPath,
        .construct (env.imread inputPath) parameters.superpixels parameters.bins
          parameters.neighborhood parameters.confidence parameters.spatialWeight .BGR,
        .initializeSeeds]⟩ := by
  unfold process
  simp [h, hc, hi, asValue, bind_eq, Run.bind, Run.pure, call, callThrowing]

theorem process_iterate_error {σ : Type} (env : Collaborators σ)
    (parameters : VariablesMap) {inputPath : String} {e : Exn} {s₀ s₁ : σ}
    (h : parameters.input = some inputPath)
    (hc : env.construct (env.imread inputPath) parameters.superpixels parameters.bins
      parameters.neighborhood parameters.confidence parameters.spatialWeight .BGR = .ok s₀)
    (hi : env.initializeSeeds s₀ = .ok s₁)
    (ht : env.iterate s₁ parameters.iterations = .error e) :
    process env parameters = ⟨.error e,
      [.imread inputPath,
        .construct (env.imread inputPath) parameters.superpixels parameters.bins
          parameters.neighborhood parameters.confidence parameters.spatialWeight .BGR,
        .initializeSeeds, .iterate parameters.iterations]⟩ := by
  unfold process
  simp [h, hc, hi, ht, asValue, bind_eq, Run.bind, Run.pure, call, callThrowing]

theorem process_iterated {σ : Type} (env : Collaborators σ)
    (parameters : VariablesMap) {inputPath : String} {s₀ s₁ s : σ}
    (h : parameters.input = some inputPath)
    (hc : env.construct (env.imread inputPath) parameters.superpixels parameters.bins
      parameters.neighborhood parameters.confidence parameters.spatialWeight .BGR = .ok s₀)
    (hi : env.initializeSeeds s₀ = .ok s₁)
    (ht : env.iterate s₁ parameters.iterations = .ok s) :
    process env parameters =
      ⟨(finish env parameters inputPath parameters.output parameters.verbose s
          (env.imread inputPath)).result,
        [.imread inputPath,
          .construct (env.imread inputPath) parameters.superpixels parameters.bins
            parameters.neighborhood parameters.confidence parameters.spatialWeight .BGR,
          .initializeSeeds, .iterate parameters.iterations] ++
        (finish env parameters inputPath parameters.output parameters.verbose s
          (env.imread inputPath)).trace⟩ := by
  unfold process
  simp [h, hc, hi, ht, asValue, bind_eq, Run.bind, Run.pure, call, callThrowing]

theorem main_help {σ : Type} (env : Collaborators σ) (cl : CommandLine)
    (h : cl.help = true) : main env cl = ⟨.ok 1, [.print .help]⟩ := by
  simp [main, store, h, bind_eq, pure_eq, Run.bind, emit]

theorem main_no_help {σ : Type} (env : Collaborators σ) (cl : CommandLine)
    (h : cl.help = false) : main env cl = process env (store cl) := by
  simp [main, store, h]

/-! ## The shape of a run of `finish` -/

theorem finish_ok {σ : Type} {env : Collaborators σ} {parameters : VariablesMap}
    {inputPath outputPath : String} {verbose : Bool} {seeds : σ} {image : Mat} {code : Int}
    (h : (finish env parameters inputPath outputPath verbose seeds image).result = .ok code) :
    code = 0 ∧
    (saveContour env parameters inputPath outputPath verbose seeds image).result = .ok () ∧
    (saveLabels env parameters inputPath outputPath verbose seeds image).result = .ok () ∧
    (saveMean env parameters inputPath outputPath verbose seeds image).result = .ok () ∧
    (saveIndex env parameters inputPath outputPath verbose seeds image).result = .ok () ∧
    (finish env parameters inputPath outputPath verbose seeds image).trace =
      (reportCount env inputPath verbose seeds image).trace ++
      ((saveContour env parameters inputPath outputPath verbose seeds image).trace ++
      ((saveLabels env parameters inputPath outputPath verbose seeds image).trace ++
      ((saveMean env parameters inputPath outputPath verbose seeds image).trace ++
      ((saveIndex env parameters inputPath outputPath verbose seeds image).trace ++
      [.print .secondsNeeded])))) := by
  unfold finish at h ⊢
  obtain ⟨_, _, h₁, t₁⟩ := result_bind_ok h
  obtain ⟨_, r₂, h₂, t₂⟩ := result_bind_ok h₁
  obtain ⟨_, r₃, h₃, t₃⟩ := result_bind_ok h₂
  obtain ⟨_, r₄, h₄, t₄⟩ := result_bind_ok h₃
  obtain ⟨_, r₅, h₅, t₅⟩ := result_bind_ok h₄
  obtain ⟨_, _, h₆, t₆⟩ := result_bind_ok h₅
  refine ⟨?_, r₂, r₃, r₄, r₅, ?_⟩
  · simp [pure_eq] at h₆
    exact h₆.symm
  · rw [t₁, t₂, t₃, t₄, t₅, t₆]
    simp [emit, pure_eq]

theorem finish_mem {σ : Type} {env : Collaborators σ} {parameters : VariablesMap}
    {inputPath outputPath : String} {verbose : Bool} {seeds : σ} {image : Mat} {e : Event}
    (h : e ∈ (finish env parameters inputPath outputPath verbose seeds image).trace) :
    e = .getLabels ∨ (∃ m, e = .print m) ∨ (∃ img b, e = .imwrite outputPath img b) ∨
    (verbose = true ∧
      e = .countSuperpixels (env.getLabels seeds) image.rows image.cols) ∨
    e = .contourImage (env.getLabels seeds) image (0, 0, 204) ∨
    e = .labelImage (env.getLabels seeds) image ∨
    e = .meanImage (env.getLabels seeds) image ∨
    e = .indexImage (env.getLabels seeds) image := by
  unfold finish at h
  rcases mem_trace_bind h with h | ⟨_, _, h⟩
  · rw [reportCount_eq] at h
    cases verbose <;> simp at h
    rcases h with h | h | h
    · exact Or.inl h
    · exact Or.inr (Or.inr (Or.inr (Or.inl ⟨rfl, h⟩)))
    · exact Or.inr (Or.inl ⟨_, h⟩)
  rcases mem_trace_bind h with h | ⟨_, _, h⟩
  · rw [saveContour_eq] at h
    rcases branchRun_mem h with h | h | ⟨b, h⟩ | h
    · exact Or.inl h
    · exact Or.inr (Or.inr (Or.inr (Or.inr (Or.inl h))))
    · exact Or.inr (Or.inr (Or.inl ⟨_, b, h⟩))
    · exact Or.inr (Or.inl ⟨_, h⟩)
  rcases mem_trace_bind h with h | ⟨_, _, h⟩
  · rw [saveLabels_eq] at h
    rcases branchRun_mem h with h | h | ⟨b, h⟩ | h
    · exact Or.inl h
    · exact Or.inr (Or.inr (Or.inr (Or.inr (Or.inr (Or.inl h)))))
    · exact Or.inr (Or.inr (Or.inl ⟨_, b, h⟩))
    · exact Or.inr (Or.inl ⟨_, h⟩)
  rcases mem_trace_bind h with h | ⟨_, _, h⟩
  · rw [saveMean_eq] at h
    rcases branchRun_mem h with h | h | ⟨b, h⟩ | h
    · exact Or.inl h
    · exact Or.inr (Or.inr (Or.inr (Or.inr (Or.inr (Or.inr (Or.inl h))))))
    · exact Or.inr (Or.inr (Or.inl ⟨_, b, h⟩))
    · exact Or.inr (Or.inl ⟨_, h⟩)
  rcases mem_trace_bind h with h | ⟨_, _, h⟩
  · rw [saveIndex_eq] at h
    rcases branchRun_mem h with h | h | ⟨b, h⟩ | h
    · exact Or.inl h
    · exact Or.inr (Or.inr (Or.inr (Or.inr (Or.inr (Or.inr (Or.inr h))))))
    · exact Or.inr (Or.inr (Or.inl ⟨_, b, h⟩))
    · exact Or.inr (Or.inl ⟨_, h⟩)
  · simp [bind_eq, Run.bind, emit, pure_eq] at h
    exact Or.inr (Or.inl ⟨_, h⟩)

theorem finish_complete {σ : Type} (env : Collaborators σ) (parameters : VariablesMap)
    (inputPath outputPath : String) (verbose : Bool) (seeds : σ) (image : Mat)
    (hw : ∀ img, ∃ b, env.imwrite outputPath img = .ok b) :
    (finish env parameters inputPath outputPath verbose seeds image).result = .ok 0 := by
  have h₀ : (reportCount env inputPath verbose seeds image).result = .ok () := by
    rw [reportCount_eq]
  have h₁ : (saveContour env parameters inputPath outputPath verbose seeds image).result
      = .ok () := by
    obtain ⟨b, hb⟩ := hw (env.contourImage (env.getLabels seeds) image (0, 0, 204))
    rw [saveContour_eq, branchRun_result, hb]; simp
  have h₂ : (saveLabels env parameters inputPath outputPath verbose seeds image).result
      = .ok () := by
    obtain ⟨b, hb⟩ := hw (env.labelImage (env.getLabels seeds) image)
    rw [saveLabels_eq, branchRun_result, hb]; simp
  have h₃ : (saveMean env parameters inputPath outputPath verbose seeds image).result
      = .ok () := by
    obtain ⟨b, hb⟩ := hw (env.meanImage (env.getLabels seeds) image)
    rw [saveMean_eq, branchRun_result, hb]; simp
  have h₄ : (saveIndex env parameters inputPath outputPath verbose seeds image).result
      = .ok () := by
    obtain ⟨b, hb⟩ := hw (env.indexImage (env.getLabels seeds) image)
    rw [saveIndex_eq, branchRun_result, hb]; simp
  unfold finish
  rw [bind_ok h₀, bind_ok h₁, bind_ok h₂, bind_ok h₃, bind_ok h₄]
  simp [bind_eq, Run.bind, emit, pure_eq]

theorem process_result_ok {σ : Type} {env : Collaborators σ} {parameters : VariablesMap}
    {code : Int} (h : (process env parameters).result = .ok code) :
    ∃ inputPath s₀ s₁ s, parameters.input = some inputPath ∧
      env.construct (env.imread inputPath) parameters.superpixels parameters.bins
        parameters.neighborhood parameters.confidence parameters.spatialWeight .BGR = .ok s₀ ∧
      env.initializeSeeds s₀ = .ok s₁ ∧
      env.iterate s₁ parameters.iterations = .ok s ∧
      (finish env parameters inputPath parameters.output parameters.verbose s
        (env.imread inputPath)).result = .ok code ∧
      (process env parameters).trace =
        [.imread inputPath,
          .construct (env.imread inputPath) parameters.superpixels parameters.bins
            parameters.neighborhood parameters.confidence parameters.spatialWeight .BGR,
          .initializeSeeds, .iterate parameters.iterations] ++
        (finish env parameters inputPath parameters.output parameters.verbose s
          (env.imread inputPath)).trace := by
  cases hin : parameters.input with
  | none => rw [process_no_input env parameters hin] at h; cases h
  | some inputPath =>
    cases hc : env.construct (env.imread inputPath) parameters.superpixels parameters.bins
        parameters.neighborhood parameters.confidence parameters.spatialWeight .BGR with
    | error e => rw [process_construct_error env parameters hin hc] at h; cases h
    | ok s₀ =>
      cases hi : env.initializeSeeds s₀ with
      | error e => rw [process_initialize_error env parameters hin hc hi] at h; cases h
      | ok s₁ =>
        cases ht : env.iterate s₁ parameters.iterations with
        | error e => rw [process_iterate_error env parameters hin hc hi ht] at h; cases h
        | ok s =>
          rw [process_iterated env parameters hin hc hi ht] at h ⊢
          exact ⟨inputPath, s₀, s₁, s, rfl, hc, hi, ht, h, rfl⟩

theorem exitStatus_eq_some {r : Run Int} {code : Int} (h : r.exitStatus = some code) :
    r.result = .ok code := by
  unfold Run.exitStatus at h
  cases hr : r.result with
  | error e => rw [hr] at h; cases h
  | ok c => rw [hr] at h; cases h; rfl

theorem filter_all_eq {p : Event → Bool} {a : Event} {l : List Event}
    (h : ∀ e ∈ l, p e = true → e = a) : ∃ k, l.filter p = List.replicate k a :=
  ⟨(l.filter p).length, List.eq_replicate_iff.mpr
    ⟨rfl, fun b hb => h b (List.mem_filter.mp hb).1 (List.mem_filter.mp hb).2⟩⟩

theorem finish_engineCalls {σ : Type} (env : Collaborators σ) (parameters : VariablesMap)
    (inputPath outputPath : String) (verbose : Bool) (seeds : σ) (image : Mat) :
    ∃ k, engineCalls (finish env parameters inputPath outputPath verbose seeds image).trace =
      List.replicate k .getLabels := by
  apply filter_all_eq
  intro e he hp
  rcases finish_mem he with h | ⟨_, h⟩ | ⟨_, _, h⟩ | ⟨_, h⟩ | h | h | h | h
  · exact h
  all_goals (subst h; cases hp)

theorem branchRun_engineCalls {selected : Bool} {r : Except Exn Bool} {render : Event}
    {stored : String} {image : Mat} {verbose : Bool} {message : Message}
    (hrender : render.isEngineCall = false) :
    engineCalls (branchRun selected r render stored image verbose message).trace =
      if selected then [.getLabels] else [] := by
  have h₁ : Event.isEngineCall .getLabels = true := rfl
  have h₂ : ∀ b, Event.isEngineCall (.imwrite stored image b) = false := fun _ => rfl
  have h₃ : Event.isEngineCall (.print message) = false := rfl
  unfold branchRun engineCalls
  cases selected <;> cases verbose <;> cases r <;> simp [h₁, h₂, h₃, hrender]

/-! ## The claims -/

/-- C1: on every command line with `help`, `main` returns exit status 1,
    whatever else is given or left out (a missing input included), having
    only printed the help text: no image is read, no engine constructed, no
    file written.  Without `help`, whenever `main` returns at all its exit
    status is 0, and it does return, with status 0, on every run in which
    the input is given and neither the engine nor `imwrite` throws. -/
theorem help_exits_one_and_completion_exits_zero {σ : Type} (env : Collaborators σ)
    (cl : CommandLine) :
    (cl.help = true →
      main env cl = ⟨.ok 1, [.print .help]⟩ ∧ (main env cl).exitStatus = some 1) ∧
    (cl.help = false → ∀ code, (main env cl).exitStatus = some code → code = 0) ∧
    (cl.help = false → ∀ inputPath s₀ s₁ s, cl.input = some inputPath →
      env.construct (env.imread inputPath) (store cl).superpixels (store cl).bins
        (store cl).neighborhood (store cl).confidence (store cl).spatialWeight .BGR = .ok s₀ →
      env.initializeSeeds s₀ = .ok s₁ →
      env.iterate s₁ (store cl).iterations = .ok s →
      (∀ img, ∃ b, env.imwrite (store cl).output img = .ok b) →
      (main env cl).exitStatus = some 0) := by
  refine ⟨fun h => ?_, fun h code hcode => ?_, fun h inputPath s₀ s₁ s hin hc hi ht hw => ?_⟩
  · rw [main_help env cl h]
    exact ⟨rfl, rfl⟩
  · rw [main_no_help env cl h] at hcode
    obtain ⟨_, _, _, _, _, _, _, _, hf, _⟩ := process_result_ok (exitStatus_eq_some hcode)
    exact (finish_ok hf).1
  · rw [main_no_help env cl h, process_iterated env (store cl) hin hc hi ht]
    simp [Run.exitStatus, finish_complete env (store cl) inputPath (store cl).output
      (store cl).verbose s (env.imread inputPath) hw]

/-- Witness for C1: with `help` and nothing else (no input), the sample run
    exits with 1 after printing the help; the run on `image.png` with a
    contour written to `out.png` completes with status 0. -/
theorem help_exits_one_and_completion_exits_zero_witness :
    (main sampleCollaborators { help := true }).exitStatus = some 1 ∧
    (main sampleCollaborators { help := true }).trace = [.print .help] ∧
    (main sampleCollaborators
      { input := some "image.png", contour := true, output := some "out.png" }).exitStatus
      = some 0 :=
  ⟨((help_exits_one_and_completion_exits_zero sampleCollaborators { help := true }).1 rfl).2,
    by rw [((help_exits_one_and_completion_exits_zero sampleCollaborators
      { help := true }).1 rfl).1],
    (help_exits_one_and_completion_exits_zero sampleCollaborators
      { input := some "image.png", contour := true, output := some "out.png" }).2.2 rfl
      "image.png" ⟨sampleImage, 400, [], 0⟩ ⟨sampleImage, 400, [[0, 0], [0, 0]], 0⟩
      ⟨sampleImage, 400, [[0, 0], [0, 0]], 2⟩ rfl rfl rfl rfl
      (fun _ => ⟨true, rfl⟩)⟩

theorem engineCalls_prelude {σ : Type} (env : Collaborators σ) (parameters : VariablesMap)
    (inputPath : String) (rest : List Event) :
    engineCalls ([.imread inputPath,
      .construct (env.imread inputPath) parameters.superpixels parameters.bins
        parameters.neighborhood parameters.confidence parameters.spatialWeight .BGR,
      .initializeSeeds, .iterate parameters.iterations] ++ rest) =
    [.construct (env.imread inputPath) parameters.superpixels parameters.bins
        parameters.neighborhood parameters.confidence parameters.spatialWeight .BGR,
      .initializeSeeds, .iterate parameters.iterations] ++ engineCalls rest := by
  simp [engineCalls, Event.isEngineCall, Event.isDriving]

theorem reportCount_engineCalls {σ : Type} (env : Collaborators σ) (inputPath : String)
    (verbose : Bool) (seeds : σ) (image : Mat) :
    engineCalls (reportCount env inputPath verbose seeds image).trace =
      if verbose then [.getLabels] else [] := by
  rw [reportCount_eq]
  cases verbose <;> simp [engineCalls, Event.isEngineCall, Event.isDriving]

theorem engineCalls_append (l₁ l₂ : List Event) :
    engineCalls (l₁ ++ l₂) = engineCalls l₁ ++ engineCalls l₂ := by
  simp [engineCalls]

/-- C2: without `help`, the calls `main` makes on the engine are, on every
    run, an initial part of: the constructor, once; `initialize`, once;
    `iterate`, once, with the value of the `iterations` option; then only
    `getLabels` reads.  A read happens only after all three calls were made
    and `iterate` has returned.  The run makes all three calls whenever the
    input is given and the constructor and `initialize` return; it stops
    earlier only without an input (no engine call at all) or where a call
    throws.  A run that returns has made exactly the three calls, followed by
    one read for `verbose` and one per selected rendering. -/
theorem engine_call_sequence {σ : Type} (env : Collaborators σ) (cl : CommandLine)
    (h : cl.help = false) :
    (cl.input = none → engineCalls (main env cl).trace = []) ∧
    (∀ inputPath, cl.input = some inputPath →
      ∃ j k, 1 ≤ j ∧ j ≤ 3 ∧
        engineCalls (main env cl).trace =
          ([.construct (env.imread inputPath) (store cl).superpixels (store cl).bins
              (store cl).neighborhood (store cl).confidence (store cl).spatialWeight .BGR,
            .initializeSeeds, .iterate (store cl).iterations].take j) ++
          List.replicate k .getLabels ∧
        (0 < k → j = 3 ∧ ∃ s₀ s₁ s,
          env.construct (env.imread inputPath) (store cl).superpixels (store cl).bins
            (store cl).neighborhood (store cl).confidence (store cl).spatialWeight .BGR
            = .ok s₀ ∧
          env.initializeSeeds s₀ = .ok s₁ ∧ env.iterate s₁ (store cl).iterations = .ok s)) ∧
    (∀ inputPath s₀ s₁, cl.input = some inputPath →
      env.construct (env.imread inputPath) (store cl).superpixels (store cl).bins
        (store cl).neighborhood (store cl).confidence (store cl).spatialWeight .BGR = .ok s₀ →
      env.initializeSeeds s₀ = .ok s₁ →
      ∃ k, engineCalls (main env cl).trace =
        [.construct (env.imread inputPath) (store cl).superpixels (store cl).bins
            (store cl).neighborhood (store cl).confidence (store cl).spatialWeight .BGR,
          .initializeSeeds, .iterate (store cl).iterations] ++ List.replicate k .getLabels) ∧
    (∀ code, (main env cl).exitStatus = some code →
      ∃ inputPath, cl.input = some inputPath ∧
        engineCalls (main env cl).trace =
          [.construct (env.imread inputPath) (store cl).superpixels (store cl).bins
              (store cl).neighborhood (store cl).confidence (store cl).spatialWeight .BGR,
            .initializeSeeds, .iterate (store cl).iterations] ++
          ((if cl.verbose then [.getLabels] else []) ++
          ((if cl.contour then [.getLabels] else []) ++
          ((if cl.labels then [.getLabels] else []) ++
          ((if cl.mean then [.getLabels] else []) ++
          (if cl.index then [.getLabels] else [])))))) := by
  rw [main_no_help env cl h]
  have key : ∀ inputPath, cl.input = some inputPath →
      ∃ j k, 1 ≤ j ∧ j ≤ 3 ∧
        engineCalls (process env (store cl)).trace =
          ([.construct (env.imread inputPath) (store cl).superpixels (store cl).bins
              (store cl).neighborhood (store cl).confidence (store cl).spatialWeight .BGR,
            .initializeSeeds, .iterate (store cl).iterations].take j) ++
          List.replicate k .getLabels ∧
        (0 < k → j = 3 ∧ ∃ s₀ s₁ s,
          env.construct (env.imread inputPath) (store cl).superpixels (store cl).bins
            (store cl).neighborhood (store cl).confidence (store cl).spatialWeight .BGR
            = .ok s₀ ∧
          env.initializeSeeds s₀ = .ok s₁ ∧ env.iterate s₁ (store cl).iterations = .ok s) ∧
        (∀ s₀ s₁,
          env.construct (env.imread inputPath) (store cl).superpixels (store cl).bins
            (store cl).neighborhood (store cl).confidence (store cl).spatialWeight .BGR
            = .ok s₀ → env.initializeSeeds s₀ = .ok s₁ → j = 3) := by
    intro inputPath hin
    have hin' : (store cl).input = some inputPath := hin
    cases hc : env.construct (env.imread inputPath) (store cl).superpixels (store cl).bins
        (store cl).neighborhood (store cl).confidence (store cl).spatialWeight .BGR with
    | error e =>
      rw [process_construct_error env (store cl) hin' hc]
      refine ⟨1, 0, le_refl _, by decide, ?_, fun hk => absurd hk (by decide), ?_⟩
      · simp [engineCalls, Event.isEngineCall, Event.isDriving]
      · intro s₀ s₁ h₀; cases h₀
    | ok s₀ =>
      cases hi : env.initializeSeeds s₀ with
      | error e =>
        rw [process_initialize_error env (store cl) hin' hc hi]
        refine ⟨2, 0, by decide, by decide, ?_, fun hk => absurd hk (by decide), ?_⟩
        · simp [engineCalls, Event.isEngineCall, Event.isDriving]
        · intro t₀ t₁ h₀ h₁
          cases h₀
          rw [hi] at h₁; cases h₁
      | ok s₁ =>
        cases ht : env.iterate s₁ (store cl).iterations with
        | error e =>
          rw [process_iterate_error env (store cl) hin' hc hi ht]
          refine ⟨3, 0, by decide, le_refl _, ?_, fun hk => absurd hk (by decide),
            fun _ _ _ _ => rfl⟩
          simp [engineCalls, Event.isEngineCall, Event.isDriving]
        | ok s =>
          rw [process_iterated env (store cl) hin' hc hi ht]
          obtain ⟨k, hk⟩ := finish_engineCalls env (store cl) inputPath (store cl).output
            (store cl).verbose s (env.imread inputPath)
          refine ⟨3, k, by decide, le_refl _, ?_, fun _ => ⟨rfl, s₀, s₁, s, rfl, hi, ht⟩,
            fun _ _ _ _ => rfl⟩
          simp only [engineCalls_prelude, hk, List.take_succ_cons, List.take_zero]
  refine ⟨fun hin => ?_, fun inputPath hin => ?_, fun inputPath s₀ s₁ hin hc hi => ?_,
    fun code hcode => ?_⟩
  · rw [process_no_input env (store cl) hin]; rfl
  · obtain ⟨j, k, h₁, h₂, h₃, h₄, _⟩ := key inputPath hin
    exact ⟨j, k, h₁, h₂, h₃, h₄⟩
  · obtain ⟨j, k, _, _, h₃, _, h₅⟩ := key inputPath hin
    have hj : j = 3 := h₅ s₀ s₁ hc hi
    subst hj
    exact ⟨k, h₃⟩
  · obtain ⟨inputPath, s₀, s₁, s, hin, hc, hi, ht, hf, htr⟩ :=
      process_result_ok (exitStatus_eq_some hcode)
    refine ⟨inputPath, hin, ?_⟩
    obtain ⟨_, _, _, _, _, hft⟩ := finish_ok hf
    rw [htr, engineCalls_prelude, hft]
    simp only [engineCalls_append, reportCount_engineCalls]
    rw [saveContour_eq, saveLabels_eq, saveMean_eq, saveIndex_eq,
      branchRun_engineCalls (by rfl), branchRun_engineCalls (by rfl),
      branchRun_engineCalls (by rfl), branchRun_engineCalls (by rfl)]
    simp [engineCalls, Event.isEngineCall, Event.isDriving, store]

/-- Witness for C2: the sample run on `image.png` with `verbose`, `contour`
    and `index` returns, and its engine calls are the constructor,
    `initialize`, `iterate(2)` and three reads of the labels. -/
theorem engine_call_sequence_witness :
    engineCalls (main sampleCollaborators
      { input := some "image.png", verbose := true, contour := true, index := true,
        output := some "out.png" }).trace =
      [.construct sampleImage 400 5 1 ⟨13421773, -27⟩ ⟨8388608, -25⟩ .BGR,
        .initializeSeeds, .iterate 2, .getLabels, .getLabels, .getLabels] := by
  obtain ⟨_, hp, ht⟩ := (engine_call_sequence sampleCollaborators
    { input := some "image.png", verbose := true, contour := true, index := true,
      output := some "out.png" } rfl).2.2.2 0 rfl
  cases hp
  exact ht

theorem process_shape {σ : Type} (env : Collaborators σ) (parameters : VariablesMap)
    {inputPath : String} (h : parameters.input = some inputPath) :
    ∃ rest, (process env parameters).trace =
        [.imread inputPath,
          .construct (env.imread inputPath) parameters.superpixels parameters.bins
            parameters.neighborhood parameters.confidence parameters.spatialWeight .BGR] ++ rest ∧
      (∀ e ∈ rest, e.isConstruct = false) ∧
      (∀ s₀, env.construct (env.imread inputPath) parameters.superpixels parameters.bins
          parameters.neighborhood parameters.confidence parameters.spatialWeight .BGR = .ok s₀ →
        ∃ rest₁, rest = .initializeSeeds :: rest₁ ∧
          (∀ s₁, env.initializeSeeds s₀ = .ok s₁ →
            ∃ rest₂, rest₁ = .iterate parameters.iterations :: rest₂)) := by
  cases hc : env.construct (env.imread inputPath) parameters.superpixels parameters.bins
      parameters.neighborhood parameters.confidence parameters.spatialWeight .BGR with
  | error e =>
    rw [process_construct_error env parameters h hc]
    exact ⟨[], rfl, by simp, fun s₀ h₀ => by cases h₀⟩
  | ok s₀ =>
    cases hi : env.initializeSeeds s₀ with
    | error e =>
      rw [process_initialize_error env parameters h hc hi]
      refine ⟨[.initializeSeeds], rfl, by simp [Event.isConstruct], fun t₀ h₀ => ?_⟩
      cases h₀
      exact ⟨[], rfl, fun s₁ h₁ => by rw [hi] at h₁; cases h₁⟩
    | ok s₁ =>
      cases ht : env.iterate s₁ parameters.iterations with
      | error e =>
        rw [process_iterate_error env parameters h hc hi ht]
        refine ⟨[.initializeSeeds, .iterate parameters.iterations], rfl,
          by simp [Event.isConstruct], fun t₀ h₀ => ?_⟩
        cases h₀
        exact ⟨[.iterate parameters.iterations], rfl, fun _ _ => ⟨[], rfl⟩⟩
      | ok s =>
        rw [process_iterated env parameters h hc hi ht]
        refine ⟨[.initializeSeeds, .iterate parameters.iterations] ++
          (finish env parameters inputPath parameters.output parameters.verbose s
            (env.imread inputPath)).trace, rfl, ?_, fun t₀ h₀ => ?_⟩
        · intro e he
          rcases List.mem_append.mp he with he | he
          · simp at he
            rcases he with he | he <;> subst he <;> rfl
          · rcases finish_mem he with h | ⟨_, h⟩ | ⟨_, _, h⟩ | ⟨_, h⟩ | h | h | h | h <;>
              subst h <;> rfl
        · cases h₀
          exact ⟨_, rfl, fun _ _ => ⟨_, rfl⟩⟩

/-- C3: an option left out of the command line takes its documented default:
    bins 5, neighborhood 1, confidence the single-precision value of the
    literal `0.1` (that is 13421773 · 2⁻²⁷, within half a unit in the last
    place of 1/10, whose nine significant digits read 0.100000001),
    iterations 2, spatial-weight 0.25, superpixels 400, output `"output"`.
    So a command line with only an input reads that input and constructs the
    engine with (400, 5, 1, 0.1, 0.25) and tag BGR, and, once the
    constructor and `initialize` have returned, calls `iterate(2)`. -/
theorem omitted_options_take_defaults {σ : Type} (env : Collaborators σ) :
    (∀ cl : CommandLine,
      (cl.bins = none → (store cl).bins = 5) ∧
      (cl.neighborhood = none → (store cl).neighborhood = 1) ∧
      (cl.confidence = none → (store cl).confidence = toFloat (doubleLiteral 1 10)) ∧
      (cl.iterations = none → (store cl).iterations = 2) ∧
      (cl.spatialWeight = none → (store cl).spatialWeight = toFloat (doubleLiteral 25 100)) ∧
      (cl.superpixels = none → (store cl).superpixels = 400) ∧
      (cl.output = none → (store cl).output = "output")) ∧
    (toFloat (doubleLiteral 1 10) = ⟨13421773, -27⟩ ∧
      |(toFloat (doubleLiteral 1 10)).toRat - 1 / 10| ≤ 2 ^ (-28 : ℤ) ∧
      nineDigits (toFloat (doubleLiteral 1 10)) = 100000001 ∧
      (toFloat (doubleLiteral 25 100)).toRat = 1 / 4) ∧
    (∀ inputPath : String,
      ∃ rest, (main env { input := some inputPath }).trace =
        [.imread inputPath,
          .construct (env.imread inputPath) 400 5 1 (toFloat (doubleLiteral 1 10))
            (toFloat (doubleLiteral 25 100)) .BGR] ++ rest) ∧
    (∀ (inputPath : String) (s₀ s₁ : σ),
      env.construct (env.imread inputPath) 400 5 1 (toFloat (doubleLiteral 1 10))
        (toFloat (doubleLiteral 25 100)) .BGR = .ok s₀ →
      env.initializeSeeds s₀ = .ok s₁ →
      ∃ rest, (main env { input := some inputPath }).trace =
        [.imread inputPath,
          .construct (env.imread inputPath) 400 5 1 (toFloat (doubleLiteral 1 10))
            (toFloat (doubleLiteral 25 100)) .BGR,
          .initializeSeeds, .iterate 2] ++ rest) := by
  have h₁ : toFloat (doubleLiteral 1 10) = ⟨13421773, -27⟩ := by decide
  have h₂ : toFloat (doubleLiteral 25 100) = ⟨8388608, -25⟩ := by decide
  refine ⟨fun cl => ?_, ⟨h₁, ?_, ?_, ?_⟩, fun inputPath => ?_, fun inputPath s₀ s₁ hc hi => ?_⟩
  · refine ⟨?_, ?_, ?_, ?_, ?_, ?_, ?_⟩ <;> intro h <;> simp [store, h]
  · rw [h₁]
    norm_num [Binary.toRat, abs_le]
  · rw [h₁]; decide
  · rw [h₂]
    norm_num [Binary.toRat]
  · obtain ⟨rest, hr, _⟩ := process_shape env (store { input := some inputPath })
      rfl
    exact ⟨rest, by rw [main_no_help env _ rfl, hr]; rfl⟩
  · obtain ⟨rest, hr, _, hs⟩ := process_shape env (store { input := some inputPath })
      rfl
    obtain ⟨rest₁, hr₁, hs₁⟩ := hs s₀ hc
    obtain ⟨rest₂, hr₂⟩ := hs₁ s₁ hi
    exact ⟨rest₂, by rw [main_no_help env _ rfl, hr, hr₁, hr₂]; rfl⟩

/-- Witness for C3: on the command line `image.png` alone the sample run
    constructs the engine with the defaults and calls `iterate(2)`. -/
theorem omitted_options_take_defaults_witness :
    ∃ rest, (main sampleCollaborators { input := some "image.png" }).trace =
      [.imread "image.png",
        .construct (sampleCollaborators.imread "image.png") 400 5 1
          (toFloat (doubleLiteral 1 10)) (toFloat (doubleLiteral 25 100)) .BGR,
        .initializeSeeds, .iterate 2] ++ rest :=
  (omitted_options_take_defaults sampleCollaborators).2.2.2 "image.png"
    ⟨sampleImage, 400, [], 0⟩ ⟨sampleImage, 400, [[0, 0], [0, 0]], 0⟩ rfl rfl

/-- C4: without `help`, the only constructor call of a run is the one made
    right after reading the input: its arguments are, in this order, the
    image `imread` returned for the input path, then the values of the
    options superpixels, bins, neighborhood, confidence and spatial-weight
    as parsed (the value given on the command line, unchanged), then the tag
    BGR.  Without an input no engine is constructed. -/
theorem constructor_arguments {σ : Type} (env : Collaborators σ) (cl : CommandLine)
    (h : cl.help = false) :
    (∀ inputPath, cl.input = some inputPath →
      ∃ rest, (main env cl).trace =
        [.imread inputPath,
          .construct (env.imread inputPath) (store cl).superpixels (store cl).bins
            (store cl).neighborhood (store cl).confidence (store cl).spatialWeight .BGR]
          ++ rest ∧
        ∀ e ∈ rest, e.isConstruct = false) ∧
    (cl.input = none → (main env cl).trace = []) ∧
    ((∀ v, cl.superpixels = some v → (store cl).superpixels = v) ∧
      (∀ v, cl.bins = some v → (store cl).bins = v) ∧
      (∀ v, cl.neighborhood = some v → (store cl).neighborhood = v) ∧
      (∀ v, cl.confidence = some v → (store cl).confidence = v) ∧
      (∀ v, cl.spatialWeight = some v → (store cl).spatialWeight = v)) := by
  rw [main_no_help env cl h]
  refine ⟨fun inputPath hin => ?_, fun hin => ?_, ?_⟩
  · obtain ⟨rest, hr, hn, _⟩ := process_shape env (store cl) hin
    exact ⟨rest, hr, hn⟩
  · rw [process_no_input env (store cl) hin]
  · refine ⟨?_, ?_, ?_, ?_, ?_⟩ <;> intro v hv <;> simp [store, hv]

/-- Witness for C4: the sample run with every numeric option given passes
    each value on in its place. -/
theorem constructor_arguments_witness :
    ∃ rest, (main sampleCollaborators
      { input := some "image.png", superpixels := some 9, bins := some 7,
        neighborhood := some 3, confidence := some ⟨8388608, -24⟩,
        spatialWeight := some ⟨12582912, -24⟩ }).trace =
      [.imread "image.png",
        .construct sampleImage 9 7 3 ⟨8388608, -24⟩ ⟨12582912, -24⟩ .BGR] ++ rest ∧
      ∀ e ∈ rest, e.isConstruct = false :=
  (constructor_arguments sampleCollaborators
    { input := some "image.png", superpixels := some 9, bins := some 7,
      neighborhood := some 3, confidence := some ⟨8388608, -24⟩,
      spatialWeight := some ⟨12582912, -24⟩ } rfl).1 "image.png" rfl

/-- C5, counterexample: `nothing.png` does not decode (the codec returns
    the empty `Mat`), yet the run constructs the engine on that empty image
    and calls `initialize()` on it; nothing is printed, and the run ends
    only because the engine throws. -/
theorem decode_failure_reaches_engine :
    (sampleCollaborators.imread "nothing.png").empty = true ∧
    (main sampleCollaborators { input := some "nothing.png" }).trace =
      [.imread "nothing.png",
        .construct ⟨0, 0, []⟩ 400 5 1 ⟨13421773, -27⟩ ⟨8388608, -25⟩ .BGR,
        .initializeSeeds] ∧
    (main sampleCollaborators { input := some "nothing.png" }).result =
      .error (.thrown "input error") := by
  refine ⟨by decide, by decide, rfl⟩

/-- C5, amended: without `help`, when the input path does not decode (the
    codec returns an empty image) `main` does not check the image: the next
    thing it does is construct the engine on the empty image; it calls
    `initialize()` when the constructor returns and `iterate` with the
    `iterations` value when `initialize()` returns; and when these calls and
    `imwrite` do not throw, the run ends with exit status 0 like any other. -/
theorem decode_failure_is_not_checked {σ : Type} (env : Collaborators σ) (cl : CommandLine)
    (inputPath : String) (h : cl.help = false) (hin : cl.input = some inputPath)
    (_hempty : (env.imread inputPath).empty = true) :
    (∃ rest, (main env cl).trace =
      [.imread inputPath,
        .construct (env.imread inputPath) (store cl).superpixels (store cl).bins
          (store cl).neighborhood (store cl).confidence (store cl).spatialWeight .BGR]
        ++ rest) ∧
    (∀ s₀, env.construct (env.imread inputPath) (store cl).superpixels (store cl).bins
        (store cl).neighborhood (store cl).confidence (store cl).spatialWeight .BGR = .ok s₀ →
      (∃ rest, (main env cl).trace =
        [.imread inputPath,
          .construct (env.imread inputPath) (store cl).superpixels (store cl).bins
            (store cl).neighborhood (store cl).confidence (store cl).spatialWeight .BGR,
          .initializeSeeds] ++ rest) ∧
      ∀ s₁, env.initializeSeeds s₀ = .ok s₁ →
        (∃ rest, (main env cl).trace =
          [.imread inputPath,
            .construct (env.imread inputPath) (store cl).superpixels (store cl).bins
              (store cl).neighborhood (store cl).confidence (store cl).spatialWeight .BGR,
            .initializeSeeds, .iterate (store cl).iterations] ++ rest) ∧
        ∀ s, env.iterate s₁ (store cl).iterations = .ok s →
          (∀ img, ∃ b, env.imwrite (store cl).output img = .ok b) →
          (main env cl).exitStatus = some 0) := by
  rw [main_no_help env cl h]
  obtain ⟨rest, hr, _, hs⟩ := process_shape env (store cl) hin
  refine ⟨⟨rest, hr⟩, fun s₀ hc => ?_⟩
  obtain ⟨rest₁, hr₁, hs₁⟩ := hs s₀ hc
  refine ⟨⟨rest₁, by rw [hr, hr₁]; rfl⟩, fun s₁ hi => ?_⟩
  obtain ⟨rest₂, hr₂⟩ := hs₁ s₁ hi
  refine ⟨⟨rest₂, by rw [hr, hr₁, hr₂]; rfl⟩, fun s ht hw => ?_⟩
  rw [process_iterated env (store cl) hin hc hi ht]
  simp [Run.exitStatus, finish_complete env (store cl) inputPath (store cl).output
    (store cl).verbose s (env.imread inputPath) hw]

/-- Witness for C5: the amended statement at the sample run on
    `nothing.png`, whose image is empty. -/
theorem decode_failure_is_not_checked_witness :
    (sampleCollaborators.imread "nothing.png").empty = true ∧
    ∃ rest, (main sampleCollaborators { input := some "nothing.png" }).trace =
      [.imread "nothing.png",
        .construct (sampleCollaborators.imread "nothing.png") 400 5 1
          (toFloat (doubleLiteral 1 10)) (toFloat (doubleLiteral 25 100)) .BGR] ++ rest :=
  ⟨by decide,
    (decode_failure_is_not_checked sampleCollaborators { input := some "nothing.png" }
      "nothing.png" rfl rfl (by decide)).1⟩

theorem process_first_three {σ : Type} (env : Collaborators σ) (p q : VariablesMap)
    (hinput : p.input = q.input) (hs : p.superpixels = q.superpixels) (hb : p.bins = q.bins)
    (hn : p.neighborhood = q.neighborhood) (hc : p.confidence = q.confidence)
    (hw : p.spatialWeight = q.spatialWeight) :
    (process env p).trace.take 3 = (process env q).trace.take 3 := by
  cases hin : p.input with
  | none =>
    rw [process_no_input env p hin, process_no_input env q (hinput ▸ hin)]
  | some inputPath =>
    have hin' : q.input = some inputPath := hinput ▸ hin
    cases hcp : env.construct (env.imread inputPath) p.superpixels p.bins p.neighborhood
        p.confidence p.spatialWeight .BGR with
    | error e =>
      have hcq := hcp
      rw [hs, hb, hn, hc, hw] at hcq
      rw [process_construct_error env p hin hcp, process_construct_error env q hin' hcq,
        hs, hb, hn, hc, hw]
    | ok s₀ =>
      have hcq := hcp
      rw [hs, hb, hn, hc, hw] at hcq
      cases hi : env.initializeSeeds s₀ with
      | error e =>
        rw [process_initialize_error env p hin hcp hi,
          process_initialize_error env q hin' hcq hi, hs, hb, hn, hc, hw]
      | ok s₁ =>
        have hp : ∃ rest, (process env p).trace =
            [.imread inputPath,
              .construct (env.imread inputPath) q.superpixels q.bins q.neighborhood
                q.confidence q.spatialWeight .BGR, .initializeSeeds] ++ rest := by
          obtain ⟨rest, hr, _, hsh⟩ := process_shape env p hin
          obtain ⟨rest₁, hr₁, _⟩ := hsh s₀ hcp
          exact ⟨rest₁, by rw [hr, hr₁, hs, hb, hn, hc, hw]; rfl⟩
        have hq : ∃ rest, (process env q).trace =
            [.imread inputPath,
              .construct (env.imread inputPath) q.superpixels q.bins q.neighborhood
                q.confidence q.spatialWeight .BGR, .initializeSeeds] ++ rest := by
          obtain ⟨rest, hr, _, hsh⟩ := process_shape env q hin'
          obtain ⟨rest₁, hr₁, _⟩ := hsh s₀ hcq
          exact ⟨rest₁, by rw [hr, hr₁]; rfl⟩
        obtain ⟨_, hp⟩ := hp
        obtain ⟨_, hq⟩ := hq
        rw [hp, hq]
        simp

/-- C6, counterexample: with `iterations` 0, and likewise with -3, the sample
    run constructs and initializes the engine without any error and then
    calls `iterate` with that very count. -/
theorem nonpositive_iterations_reach_iterate :
    (main sampleCollaborators { input := some "image.png", iterations := some 0 }).trace =
      [.imread "image.png",
        .construct sampleImage 400 5 1 ⟨13421773, -27⟩ ⟨8388608, -25⟩ .BGR,
        .initializeSeeds, .iterate 0] ∧
    (main sampleCollaborators { input := some "image.png", iterations := some (-3) }).trace =
      [.imread "image.png",
        .construct sampleImage 400 5 1 ⟨13421773, -27⟩ ⟨8388608, -25⟩ .BGR,
        .initializeSeeds, .iterate (-3)] := by
  refine ⟨by decide, by decide⟩

/-- C6, amended: without `help` and with an input, an `iterations` value
    `n ≤ 0` is handed to `iterate` unchanged as soon as the constructor and
    `initialize()` have returned; neither of the two receives the iteration
    count, so the first three steps of the run (reading the image, the
    constructor call, the `initialize()` call) are the same for every other
    `iterations` value `m`. -/
theorem iterations_reach_iterate_unchecked {σ : Type} (env : Collaborators σ)
    (cl : CommandLine) (inputPath : String) (n : Int) (h : cl.help = false)
    (hin : cl.input = some inputPath) (hn : cl.iterations = some n) (_hneg : n ≤ 0) :
    (∀ s₀ s₁,
      env.construct (env.imread inputPath) (store cl).superpixels (store cl).bins
        (store cl).neighborhood (store cl).confidence (store cl).spatialWeight .BGR = .ok s₀ →
      env.initializeSeeds s₀ = .ok s₁ →
      ∃ rest, (main env cl).trace =
        [.imread inputPath,
          .construct (env.imread inputPath) (store cl).superpixels (store cl).bins
            (store cl).neighborhood (store cl).confidence (store cl).spatialWeight .BGR,
          .initializeSeeds, .iterate n] ++ rest) ∧
    (∀ m : Int, (main env { cl with iterations := some m }).trace.take 3 =
      (main env cl).trace.take 3) := by
  refine ⟨fun s₀ s₁ hc hi => ?_, fun m => ?_⟩
  · rw [main_no_help env cl h]
    obtain ⟨rest, hr, _, hs⟩ := process_shape env (store cl) hin
    obtain ⟨rest₁, hr₁, hs₁⟩ := hs s₀ hc
    obtain ⟨rest₂, hr₂⟩ := hs₁ s₁ hi
    have hit : (store cl).iterations = n := by simp [store, hn]
    exact ⟨rest₂, by rw [hr, hr₁, hr₂, hit]; rfl⟩
  · rw [main_no_help env cl h, main_no_help env { cl with iterations := some m } h]
    exact process_first_three env _ _ rfl rfl rfl rfl rfl rfl

/-- Witness for C6: the amended statement at the sample run with
    `iterations` 0. -/
theorem iterations_reach_iterate_unchecked_witness :
    ∃ rest, (main sampleCollaborators
      { input := some "image.png", iterations := some 0 }).trace =
      [.imread "image.png",
        .construct (sampleCollaborators.imread "image.png") 400 5 1
          (toFloat (doubleLiteral 1 10)) (toFloat (doubleLiteral 25 100)) .BGR,
        .initializeSeeds, .iterate 0] ++ rest :=
  (iterations_reach_iterate_unchecked sampleCollaborators
    { input := some "image.png", iterations := some 0 } "image.png" 0 rfl rfl rfl
    (le_refl _)).1 ⟨sampleImage, 400, [], 0⟩ ⟨sampleImage, 400, [[0, 0], [0, 0]], 0⟩ rfl rfl

theorem main_ignores_csv {σ : Type} (env : Collaborators σ) (cl : CommandLine) (b : Bool) :
    main env { cl with csv := b } = main env cl := rfl

theorem process_writes {σ : Type} (env : Collaborators σ) (parameters : VariablesMap)
    {w : String × Mat} (h : w ∈ writes (process env parameters).trace) :
    w.1 = parameters.output := by
  obtain ⟨e, he, hw⟩ := List.mem_filterMap.mp h
  cases hin : parameters.input with
  | none => rw [process_no_input env parameters hin] at he; cases he
  | some inputPath =>
    obtain ⟨rest, hr, _, _⟩ := process_shape env parameters hin
    cases hc : env.construct (env.imread inputPath) parameters.superpixels parameters.bins
        parameters.neighborhood parameters.confidence parameters.spatialWeight .BGR with
    | error err =>
      rw [process_construct_error env parameters hin hc] at he
      simp at he
      rcases he with he | he <;> subst he <;> cases hw
    | ok s₀ =>
      cases hi : env.initializeSeeds s₀ with
      | error err =>
        rw [process_initialize_error env parameters hin hc hi] at he
        simp at he
        rcases he with he | he | he <;> subst he <;> cases hw
      | ok s₁ =>
        cases ht : env.iterate s₁ parameters.iterations with
        | error err =>
          rw [process_iterate_error env parameters hin hc hi ht] at he
          simp at he
          rcases he with he | he | he | he <;> subst he <;> cases hw
        | ok s =>
          rw [process_iterated env parameters hin hc hi ht] at he
          rcases List.mem_append.mp he with he | he
          · simp at he
            rcases he with he | he | he | he <;> subst he <;> cases hw
          · rcases finish_mem he with h | ⟨_, h⟩ | ⟨_, _, h⟩ | ⟨_, h⟩ | h | h | h | h <;>
              subst h <;> cases hw
            rfl

/-- C7, the code at the failing input: with `csv` given, the sample run on
    `image.png` is the very run made without it, and no file is written. -/
theorem csv_option_writes_nothing :
    main sampleCollaborators
      { input := some "image.png", csv := true, output := some "labels.csv" } =
      main sampleCollaborators { input := some "image.png", output := some "labels.csv" } ∧
    writes (main sampleCollaborators
      { input := some "image.png", csv := true, output := some "labels.csv" }).trace = [] ∧
    (main sampleCollaborators
      { input := some "image.png", csv := true, output := some "labels.csv" }).exitStatus
      = some 0 := by
  refine ⟨rfl, by decide, by decide⟩

theorem writes_append (l₁ l₂ : List Event) : writes (l₁ ++ l₂) = writes l₁ ++ writes l₂ := by
  simp [writes]

theorem reportCount_filterMap {σ γ : Type} (g : Event → Option γ)
    (hread : g .getLabels = none) (hcount : ∀ l r c, g (.countSuperpixels l r c) = none)
    (hprint : ∀ m, g (.print m) = none)
    (env : Collaborators σ) (inputPath : String) (verbose : Bool) (seeds : σ) (image : Mat) :
    (reportCount env inputPath verbose seeds image).trace.filterMap g = [] := by
  rw [reportCount_eq]
  cases verbose <;> simp [hread, hcount, hprint]

theorem branchRun_written {selected : Bool} {render : Event} {stored : String}
    {image : Mat} {verbose : Bool} {message : Message}
    (hrender : render.writtenTo? stored = none) :
    (branchRun selected (.ok true) render stored image verbose message).trace.filterMap
        (Event.writtenTo? stored) =
      if selected then [image] else [] := by
  have h₁ : Event.writtenTo? stored .getLabels = none := rfl
  have h₂ : Event.writtenTo? stored (.imwrite stored image true) = some image := by
    simp [Event.writtenTo?]
  have h₃ : Event.writtenTo? stored (.print message) = none := rfl
  unfold branchRun
  cases selected <;> cases verbose <;> simp [h₁, h₂, h₃, hrender]

theorem finish_ok_writes {σ : Type} {env : Collaborators σ} {parameters : VariablesMap}
    {inputPath outputPath : String} {verbose : Bool} {seeds : σ} {image : Mat} {code : Int}
    (h : (finish env parameters inputPath outputPath verbose seeds image).result = .ok code) :
    writes (finish env parameters inputPath outputPath verbose seeds image).trace =
      (if parameters.contour then
        [(outputPath, env.contourImage (env.getLabels seeds) image (0, 0, 204))] else []) ++
      ((if parameters.labels then
        [(outputPath, env.labelImage (env.getLabels seeds) image)] else []) ++
      ((if parameters.mean then
        [(outputPath, env.meanImage (env.getLabels seeds) image)] else []) ++
      (if parameters.index then
        [(outputPath, env.indexImage (env.getLabels seeds) image)] else []))) := by
  obtain ⟨_, _, _, _, _, hft⟩ := finish_ok h
  have hrc : writes (reportCount env inputPath verbose seeds image).trace = [] :=
    reportCount_filterMap Event.write? rfl (fun _ _ _ => rfl) (fun _ => rfl) env inputPath
      verbose seeds image
  rw [hft]
  simp only [writes_append, hrc, List.nil_append]
  rw [saveContour_eq, saveLabels_eq, saveMean_eq, saveIndex_eq,
    branchRun_writes (by rfl), branchRun_writes (by rfl), branchRun_writes (by rfl),
    branchRun_writes (by rfl)]
  simp [writes, Event.write?]

theorem finish_ok_written {σ : Type} {env : Collaborators σ} {parameters : VariablesMap}
    {inputPath outputPath : String} {verbose : Bool} {seeds : σ} {image : Mat} {code : Int}
    (h : (finish env parameters inputPath outputPath verbose seeds image).result = .ok code)
    (hw : ∀ img, env.imwrite outputPath img = .ok true) :
    (finish env parameters inputPath outputPath verbose seeds image).trace.filterMap
        (Event.writtenTo? outputPath) =
      (if parameters.contour then
        [env.contourImage (env.getLabels seeds) image (0, 0, 204)] else []) ++
      ((if parameters.labels then [env.labelImage (env.getLabels seeds) image] else []) ++
      ((if parameters.mean then [env.meanImage (env.getLabels seeds) image] else []) ++
      (if parameters.index then [env.indexImage (env.getLabels seeds) image] else []))) := by
  obtain ⟨_, _, _, _, _, hft⟩ := finish_ok h
  have hrc := reportCount_filterMap (Event.writtenTo? outputPath) rfl (fun _ _ _ => rfl)
    (fun _ => rfl) env inputPath verbose seeds image
  rw [hft]
  simp only [List.filterMap_append, hrc, List.nil_append]
  rw [saveContour_eq, saveLabels_eq, saveMean_eq, saveIndex_eq, hw, hw, hw, hw,
    branchRun_written (by rfl), branchRun_written (by rfl), branchRun_written (by rfl),
    branchRun_written (by rfl)]
  simp [Event.writtenTo?]

theorem obs_nil {γ : Type} {obs : List Event → List γ}
    (hobs : ∀ l₁ l₂, obs (l₁ ++ l₂) = obs l₁ ++ obs l₂) : obs [] = [] := by
  have h := congrArg List.length (hobs [] [])
  simp only [List.append_nil, List.length_append] at h
  exact List.length_eq_zero.mp (by omega)

theorem obs_three {γ : Type} {obs : List Event → List γ}
    (hobs : ∀ l₁ l₂, obs (l₁ ++ l₂) = obs l₁ ++ obs l₂) (a b c : Event) :
    obs [a, b, c] = obs [a] ++ (obs [b] ++ obs [c]) := by
  have h₁ : obs [a, b, c] = obs [a] ++ obs [b, c] := hobs [a] [b, c]
  have h₂ : obs [b, c] = obs [b] ++ obs [c] := hobs [b] [c]
  rw [h₁, h₂]

theorem obs_four {γ : Type} {obs : List Event → List γ}
    (hobs : ∀ l₁ l₂, obs (l₁ ++ l₂) = obs l₁ ++ obs l₂) (a b c d : Event) :
    obs [a, b, c, d] = obs [a, b, c] ++ obs [d] :=
  hobs [a, b, c] [d]

theorem branchRun_obs_verbose {γ : Type} {obs : List Event → List γ}
    (hobs : ∀ l₁ l₂, obs (l₁ ++ l₂) = obs l₁ ++ obs l₂)
    (hprint : ∀ m, obs [.print m] = [])
    (selected : Bool) (r : Except Exn Bool) (render : Event) (stored : String) (image : Mat)
    (verbose : Bool) (message : Message) :
    obs (branchRun selected r render stored image verbose message).trace =
      obs (branchRun selected r render stored image false message).trace := by
  unfold branchRun
  cases selected <;> cases verbose <;> cases r <;>
    simp [obs_four hobs, hprint]

theorem finish_verbose_agree {σ γ : Type} {obs : List Event → List γ}
    (hobs : ∀ l₁ l₂, obs (l₁ ++ l₂) = obs l₁ ++ obs l₂)
    (hprint : ∀ m, obs [.print m] = []) (hread : obs [.getLabels] = [])
    (hcount : ∀ l r c, obs [.countSuperpixels l r c] = [])
    (env : Collaborators σ) (parameters : VariablesMap) (inputPath outputPath : String)
    (verbose : Bool) (seeds : σ) (image : Mat) :
    (finish env parameters inputPath outputPath verbose seeds image).result =
      (finish env parameters inputPath outputPath false seeds image).result ∧
    obs (finish env parameters inputPath outputPath verbose seeds image).trace =
      obs (finish env parameters inputPath outputPath false seeds image).trace := by
  unfold finish
  refine bind_agree obs hobs ?_ ?_ (fun _ => ?_)
  · simp [reportCount_eq]
  · rw [reportCount_eq, reportCount_eq]
    cases verbose
    · rfl
    · simp only [if_true, Bool.false_eq_true, if_false]
      rw [obs_three hobs, hread, hcount, hprint, obs_nil hobs]
      rfl
  refine bind_agree obs hobs ?_ ?_ (fun _ => ?_)
  · rw [saveContour_eq, saveContour_eq, branchRun_result, branchRun_result]
  · rw [saveContour_eq, saveContour_eq]
    exact branchRun_obs_verbose hobs hprint _ _ _ _ _ _ _
  refine bind_agree obs hobs ?_ ?_ (fun _ => ?_)
  · rw [saveLabels_eq, saveLabels_eq, branchRun_result, branchRun_result]
  · rw [saveLabels_eq, saveLabels_eq]
    exact branchRun_obs_verbose hobs hprint _ _ _ _ _ _ _
  refine bind_agree obs hobs ?_ ?_ (fun _ => ?_)
  · rw [saveMean_eq, saveMean_eq, branchRun_result, branchRun_result]
  · rw [saveMean_eq, saveMean_eq]
    exact branchRun_obs_verbose hobs hprint _ _ _ _ _ _ _
  refine bind_agree obs hobs ?_ ?_ (fun _ => ?_)
  · rw [saveIndex_eq, saveIndex_eq, branchRun_result, branchRun_result]
  · rw [saveIndex_eq, saveIndex_eq]
    exact branchRun_obs_verbose hobs hprint _ _ _ _ _ _ _
  exact ⟨rfl, rfl⟩

theorem process_verbose_agree {σ γ : Type} {obs : List Event → List γ}
    (hobs : ∀ l₁ l₂, obs (l₁ ++ l₂) = obs l₁ ++ obs l₂)
    (hprint : ∀ m, obs [.print m] = []) (hread : obs [.getLabels] = [])
    (hcount : ∀ l r c, obs [.countSuperpixels l r c] = [])
    (env : Collaborators σ) (parameters : VariablesMap) :
    (process env { parameters with verbose := true }).result =
      (process env { parameters with verbose := false }).result ∧
    obs (process env { parameters with verbose := true }).trace =
      obs (process env { parameters with verbose := false }).trace := by
  unfold process
  refine bind_agree obs hobs rfl rfl (fun inputPath => ?_)
  refine bind_agree obs hobs rfl rfl (fun image => ?_)
  refine bind_agree obs hobs rfl rfl (fun s₀ => ?_)
  refine bind_agree obs hobs rfl rfl (fun s₁ => ?_)
  refine bind_agree obs hobs rfl rfl (fun s => ?_)
  exact finish_verbose_agree hobs hprint hread hcount env parameters inputPath
    parameters.output true s image

theorem finish_count_agree {σ γ : Type} {obs : List Event → List γ}
    (hobs : ∀ l₁ l₂, obs (l₁ ++ l₂) = obs l₁ ++ obs l₂)
    (hprint : ∀ m, obs [.print m] = [])
    (env : Collaborators σ) (f : Labels → Int → Int → Int) (parameters : VariablesMap)
    (inputPath outputPath : String) (verbose : Bool) (seeds : σ) (image : Mat) :
    (finish { env with countSuperpixels := f } parameters inputPath outputPath verbose seeds
        image).result =
      (finish env parameters inputPath outputPath verbose seeds image).result ∧
    obs (finish { env with countSuperpixels := f } parameters inputPath outputPath verbose
        seeds image).trace =
      obs (finish env parameters inputPath outputPath verbose seeds image).trace := by
  unfold finish
  refine bind_agree obs hobs ?_ ?_ (fun _ => ⟨rfl, rfl⟩)
  · simp [reportCount_eq]
  · rw [reportCount_eq, reportCount_eq]
    cases verbose
    · rfl
    · simp only [if_true]
      rw [obs_three hobs, obs_three hobs, hprint, hprint]

theorem process_count_agree {σ γ : Type} {obs : List Event → List γ}
    (hobs : ∀ l₁ l₂, obs (l₁ ++ l₂) = obs l₁ ++ obs l₂)
    (hprint : ∀ m, obs [.print m] = [])
    (env : Collaborators σ) (f : Labels → Int → Int → Int) (parameters : VariablesMap) :
    (process { env with countSuperpixels := f } parameters).result =
      (process env parameters).result ∧
    obs (process { env with countSuperpixels := f } parameters).trace =
      obs (process env parameters).trace := by
  unfold process
  refine bind_agree obs hobs rfl rfl (fun inputPath => ?_)
  refine bind_agree obs hobs rfl rfl (fun image => ?_)
  refine bind_agree obs hobs rfl rfl (fun s₀ => ?_)
  refine bind_agree obs hobs rfl rfl (fun s₁ => ?_)
  refine bind_agree obs hobs rfl rfl (fun s => ?_)
  exact finish_count_agree hobs hprint env f parameters inputPath parameters.output
    parameters.verbose s image

theorem process_mem {σ : Type} {env : Collaborators σ} {parameters : VariablesMap}
    {e : Event} (h : e ∈ (process env parameters).trace) :
    (∃ path, e = .imread path) ∨ e.isDriving = true ∨
    ∃ inputPath s₀ s₁ s, parameters.input = some inputPath ∧
      env.construct (env.imread inputPath) parameters.superpixels parameters.bins
        parameters.neighborhood parameters.confidence parameters.spatialWeight .BGR = .ok s₀ ∧
      env.initializeSeeds s₀ = .ok s₁ ∧ env.iterate s₁ parameters.iterations = .ok s ∧
      e ∈ (finish env parameters inputPath parameters.output parameters.verbose s
        (env.imread inputPath)).trace := by
  cases hin : parameters.input with
  | none => rw [process_no_input env parameters hin] at h; cases h
  | some inputPath =>
    cases hc : env.construct (env.imread inputPath) parameters.superpixels parameters.bins
        parameters.neighborhood parameters.confidence parameters.spatialWeight .BGR with
    | error err =>
      rw [process_construct_error env parameters hin hc] at h
      simp at h
      rcases h with h | h <;> subst h
      · exact Or.inl ⟨_, rfl⟩
      · exact Or.inr (Or.inl rfl)
    | ok s₀ =>
      cases hi : env.initializeSeeds s₀ with
      | error err =>
        rw [process_initialize_error env parameters hin hc hi] at h
        simp at h
        rcases h with h | h | h <;> subst h
        · exact Or.inl ⟨_, rfl⟩
        · exact Or.inr (Or.inl rfl)
        · exact Or.inr (Or.inl rfl)
      | ok s₁ =>
        cases ht : env.iterate s₁ parameters.iterations with
        | error err =>
          rw [process_iterate_error env parameters hin hc hi ht] at h
          simp at h
          rcases h with h | h | h | h <;> subst h
          · exact Or.inl ⟨_, rfl⟩
          · exact Or.inr (Or.inl rfl)
          · exact Or.inr (Or.inl rfl)
          · exact Or.inr (Or.inl rfl)
        | ok s =>
          rw [process_iterated env parameters hin hc hi ht] at h
          rcases List.mem_append.mp h with h | h
          · simp at h
            rcases h with h | h | h | h <;> subst h
            · exact Or.inl ⟨_, rfl⟩
            · exact Or.inr (Or.inl rfl)
            · exact Or.inr (Or.inl rfl)
            · exact Or.inr (Or.inl rfl)
          · exact Or.inr (Or.inr ⟨inputPath, s₀, s₁, s, rfl, hc, hi, ht, h⟩)

theorem main_verbose_agree {σ γ : Type} (obs : List Event → List γ)
    (hobs : ∀ l₁ l₂, obs (l₁ ++ l₂) = obs l₁ ++ obs l₂)
    (hprint : ∀ m, obs [.print m] = []) (hread : obs [.getLabels] = [])
    (hcount : ∀ l r c, obs [.countSuperpixels l r c] = [])
    (env : Collaborators σ) (cl : CommandLine) :
    (main env { cl with verbose := true }).result =
      (main env { cl with verbose := false }).result ∧
    obs (main env { cl with verbose := true }).trace =
      obs (main env { cl with verbose := false }).trace := by
  rcases Bool.eq_false_or_eq_true cl.help with h | h
  · rw [main_help env { cl with verbose := true } h,
      main_help env { cl with verbose := false } h]
    exact ⟨rfl, rfl⟩
  · rw [main_no_help env { cl with verbose := true } h,
      main_no_help env { cl with verbose := false } h]
    exact process_verbose_agree hobs hprint hread hcount env (store cl)

theorem main_count_agree {σ γ : Type} (obs : List Event → List γ)
    (hobs : ∀ l₁ l₂, obs (l₁ ++ l₂) = obs l₁ ++ obs l₂)
    (hprint : ∀ m, obs [.print m] = [])
    (env : Collaborators σ) (f : Labels → Int → Int → Int) (cl : CommandLine) :
    (main { env with countSuperpixels := f } cl).result = (main env cl).result ∧
    obs (main { env with countSuperpixels := f } cl).trace = obs (main env cl).trace := by
  rcases Bool.eq_false_or_eq_true cl.help with h | h
  · rw [main_help env cl h, main_help { env with countSuperpixels := f } cl h]
    exact ⟨rfl, rfl⟩
  · rw [main_no_help env cl h, main_no_help { env with countSuperpixels := f } cl h]
    exact process_count_agree hobs hprint env f (store cl)

theorem finish_trace_head {σ : Type} (env : Collaborators σ) (parameters : VariablesMap)
    (inputPath outputPath : String) (verbose : Bool) (seeds : σ) (image : Mat) :
    ∃ rest, (finish env parameters inputPath outputPath verbose seeds image).trace =
      (reportCount env inputPath verbose seeds image).trace ++ rest := by
  have h₀ : (reportCount env inputPath verbose seeds image).result = .ok () := by
    rw [reportCount_eq]
  unfold finish
  rw [bind_ok h₀]
  exact ⟨_, rfl⟩

theorem main_mem_count {σ : Type} {env : Collaborators σ} {cl : CommandLine}
    {l : Labels} {r c : Int} (h : Event.countSuperpixels l r c ∈ (main env cl).trace) :
    cl.verbose = true ∧
    ∃ inputPath s₀ s₁ s, cl.input = some inputPath ∧
      env.construct (env.imread inputPath) (store cl).superpixels (store cl).bins
        (store cl).neighborhood (store cl).confidence (store cl).spatialWeight .BGR = .ok s₀ ∧
      env.initializeSeeds s₀ = .ok s₁ ∧ env.iterate s₁ (store cl).iterations = .ok s ∧
      l = env.getLabels s ∧ r = (env.imread inputPath).rows ∧
      c = (env.imread inputPath).cols := by
  rcases Bool.eq_false_or_eq_true cl.help with hh | hh
  · rw [main_help env cl hh] at h
    simp at h
  · rw [main_no_help env cl hh] at h
    rcases process_mem h with ⟨_, he⟩ | he | ⟨inputPath, s₀, s₁, s, hin, hc, hi, ht, he⟩
    · cases he
    · cases he
    · rcases finish_mem he with h | ⟨_, h⟩ | ⟨_, _, h⟩ | ⟨hv, h⟩ | h | h | h | h
      · cases h
      · cases h
      · cases h
      · cases h
        exact ⟨hv, inputPath, s₀, s₁, s, hin, hc, hi, ht, rfl, rfl, rfl⟩
      · cases h
      · cases h
      · cases h
      · cases h

/-- C9: two command lines that differ only in `verbose` end alike (same
    exit status or same exception) and make the same constructor,
    `initialize` and `iterate` calls with the same arguments and the same
    `imwrite` calls with the same paths and images, leaving every file with
    the same content.  `countSuperpixels` is called only under `verbose`,
    only after `iterate` has returned, on the labels `getLabels()` gives
    then and the image's `rows` and `cols`; it is the step right after
    `iterate`, and its result goes into the printed line only: replacing the
    checker by any other function changes nothing of a run but lines
    printed.  (`getLabels` and the checker are read-only in this model.) -/
theorem verbose_only_adds_diagnostics {σ : Type} (env : Collaborators σ) (cl : CommandLine) :
    ((main env { cl with verbose := true }).result =
        (main env { cl with verbose := false }).result ∧
      drivingCalls (main env { cl with verbose := true }).trace =
        drivingCalls (main env { cl with verbose := false }).trace ∧
      writes (main env { cl with verbose := true }).trace =
        writes (main env { cl with verbose := false }).trace ∧
      ∀ path, fileAt (main env { cl with verbose := true }).trace path =
        fileAt (main env { cl with verbose := false }).trace path) ∧
    (∀ l r c, Event.countSuperpixels l r c ∈ (main env cl).trace →
      cl.verbose = true ∧
      ∃ inputPath s₀ s₁ s, cl.input = some inputPath ∧
        env.construct (env.imread inputPath) (store cl).superpixels (store cl).bins
          (store cl).neighborhood (store cl).confidence (store cl).spatialWeight .BGR
          = .ok s₀ ∧
        env.initializeSeeds s₀ = .ok s₁ ∧ env.iterate s₁ (store cl).iterations = .ok s ∧
        l = env.getLabels s ∧ r = (env.imread inputPath).rows ∧
        c = (env.imread inputPath).cols) ∧
    (cl.help = false → cl.verbose = true → ∀ inputPath s₀ s₁ s, cl.input = some inputPath →
      env.construct (env.imread inputPath) (store cl).superpixels (store cl).bins
        (store cl).neighborhood (store cl).confidence (store cl).spatialWeight .BGR = .ok s₀ →
      env.initializeSeeds s₀ = .ok s₁ → env.iterate s₁ (store cl).iterations = .ok s →
      ∃ rest, (main env cl).trace =
        [.imread inputPath,
          .construct (env.imread inputPath) (store cl).superpixels (store cl).bins
            (store cl).neighborhood (store cl).confidence (store cl).spatialWeight .BGR,
          .initializeSeeds, .iterate (store cl).iterations, .getLabels,
          .countSuperpixels (env.getLabels s) (env.imread inputPath).rows
            (env.imread inputPath).cols,
          .print (.superpixelCount
            (env.countSuperpixels (env.getLabels s) (env.imread inputPath).rows
              (env.imread inputPath).cols) inputPath)] ++ rest) ∧
    (∀ f : Labels → Int → Int → Int,
      (main { env with countSuperpixels := f } cl).result = (main env cl).result ∧
      silent (main { env with countSuperpixels := f } cl).trace =
        silent (main env cl).trace) := by
  refine ⟨⟨?_, ?_, ?_, fun path => ?_⟩, fun l r c h => main_mem_count h,
    fun hh hv inputPath s₀ s₁ s hin hc hi ht => ?_, fun f => ?_⟩
  · exact (main_verbose_agree drivingCalls (by simp [drivingCalls])
      (fun _ => rfl) rfl (fun _ _ _ => rfl) env cl).1
  · exact (main_verbose_agree drivingCalls (by simp [drivingCalls])
      (fun _ => rfl) rfl (fun _ _ _ => rfl) env cl).2
  · exact (main_verbose_agree writes (by simp [writes])
      (fun _ => rfl) rfl (fun _ _ _ => rfl) env cl).2
  · unfold fileAt
    rw [(main_verbose_agree (List.filterMap (Event.writtenTo? path)) (by simp)
      (fun _ => rfl) rfl (fun _ _ _ => rfl) env cl).2]
  · rw [main_no_help env cl hh, process_iterated env (store cl) hin hc hi ht]
    obtain ⟨rest, hr⟩ := finish_trace_head env (store cl) inputPath (store cl).output
      (store cl).verbose s (env.imread inputPath)
    have hv' : (store cl).verbose = true := hv
    rw [hr, reportCount_eq, hv']
    exact ⟨rest, rfl⟩
  · exact main_count_agree silent (by simp [silent]) (fun _ => rfl) env f cl

/-- Witness for C9: in the sample run with `verbose` the checker is called
    right after `iterate`, on the labels and the image's 2 rows and 2
    columns. -/
theorem verbose_only_adds_diagnostics_witness :
    ∃ rest, (main sampleCollaborators
      { input := some "image.png", verbose := true }).trace =
      [.imread "image.png",
        .construct sampleImage 400 5 1 ⟨13421773, -27⟩ ⟨8388608, -25⟩ .BGR,
        .initializeSeeds, .iterate 2, .getLabels,
        .countSuperpixels [[0, 0], [0, 0]] 2 2,
        .print (.superpixelCount 1 "image.png")] ++ rest :=
  (verbose_only_adds_diagnostics sampleCollaborators
    { input := some "image.png", verbose := true }).2.2.1 rfl rfl "image.png"
    ⟨sampleImage, 400, [], 0⟩ ⟨sampleImage, 400, [[0, 0], [0, 0]], 0⟩
    ⟨sampleImage, 400, [[0, 0], [0, 0]], 2⟩ rfl rfl rfl rfl

/-- C10: without `help`, every `imwrite` call of a run targets one and the
    same path, the string of the `output` option as given; neither the
    input's file name nor its extension nor the position computed from them
    has any effect on the run.  In a run that returns, the calls are the
    selected renderings in the order contour, labels, mean, index, and when
    `imwrite` writes each of them the file finally holds the last selected
    rendering in that order (index, else mean, else labels, else contour),
    or was never written when nothing was selected. -/
theorem renderings_overwrite_one_file {σ : Type} (env : Collaborators σ) (cl : CommandLine)
    (h : cl.help = false) :
    (∀ w ∈ writes (main env cl).trace, w.1 = (store cl).output) ∧
    (∀ w₁ ∈ writes (main env cl).trace, ∀ w₂ ∈ writes (main env cl).trace, w₁.1 = w₂.1) ∧
    (∀ v, cl.output = some v → (store cl).output = v) ∧
    (∀ (fn ext : String → String) (fd : String → String → Int),
      main { env with filename := fn, extension := ext, find := fd } cl = main env cl) ∧
    (∀ code, (main env cl).exitStatus = some code →
      ∃ inputPath s₀ s₁ s, cl.input = some inputPath ∧
        env.construct (env.imread inputPath) (store cl).superpixels (store cl).bins
          (store cl).neighborhood (store cl).confidence (store cl).spatialWeight .BGR
          = .ok s₀ ∧
        env.initializeSeeds s₀ = .ok s₁ ∧ env.iterate s₁ (store cl).iterations = .ok s ∧
        writes (main env cl).trace =
          (if cl.contour then
            [((store cl).output,
              env.contourImage (env.getLabels s) (env.imread inputPath) (0, 0, 204))]
            else []) ++
          ((if cl.labels then
            [((store cl).output, env.labelImage (env.getLabels s) (env.imread inputPath))]
            else []) ++
          ((if cl.mean then
            [((store cl).output, env.meanImage (env.getLabels s) (env.imread inputPath))]
            else []) ++
          (if cl.index then
            [((store cl).output, env.indexImage (env.getLabels s) (env.imread inputPath))]
            else []))) ∧
        ((∀ img, env.imwrite (store cl).output img = .ok true) →
          fileAt (main env cl).trace (store cl).output =
            if cl.index then some (env.indexImage (env.getLabels s) (env.imread inputPath))
            else if cl.mean then some (env.meanImage (env.getLabels s) (env.imread inputPath))
            else if cl.labels then
              some (env.labelImage (env.getLabels s) (env.imread inputPath))
            else if cl.contour then
              some (env.contourImage (env.getLabels s) (env.imread inputPath) (0, 0, 204))
            else none)) := by
  refine ⟨?_, ?_, fun v ho => by simp [store, ho], fun _ _ _ => rfl, fun code hcode => ?_⟩
  · intro w hw
    rw [main_no_help env cl h] at hw
    exact process_writes env (store cl) hw
  · intro w₁ hw₁ w₂ hw₂
    rw [main_no_help env cl h] at hw₁ hw₂
    rw [process_writes env (store cl) hw₁, process_writes env (store cl) hw₂]
  · rw [main_no_help env cl h] at hcode ⊢
    obtain ⟨inputPath, s₀, s₁, s, hin, hc, hi, ht, hf, htr⟩ :=
      process_result_ok (exitStatus_eq_some hcode)
    refine ⟨inputPath, s₀, s₁, s, hin, hc, hi, ht, ?_, fun hw => ?_⟩
    · rw [htr, writes_append, finish_ok_writes hf]
      rfl
    · unfold fileAt
      rw [htr, List.filterMap_append, finish_ok_written hf hw]
      have hcl : (store cl).contour = cl.contour ∧ (store cl).labels = cl.labels ∧
          (store cl).mean = cl.mean ∧ (store cl).index = cl.index := ⟨rfl, rfl, rfl, rfl⟩
      rw [hcl.1, hcl.2.1, hcl.2.2.1, hcl.2.2.2]
      cases cl.contour <;> cases cl.labels <;> cases cl.mean <;> cases cl.index <;>
        simp [Event.writtenTo?]

/-- Witness for C10: the sample run with `contour`, `mean` and `index`
    selected returns, and `out.png` finally holds the index rendering. -/
theorem renderings_overwrite_one_file_witness :
    fileAt (main sampleCollaborators
      { input := some "image.png", contour := true, mean := true, index := true,
        output := some "out.png" }).trace "out.png" =
      some ⟨2, 2, [4, 10, 10, 200, 200]⟩ := by
  obtain ⟨_, _, _, s, hp, _, _, ht, _, hfile⟩ :=
    (renderings_overwrite_one_file sampleCollaborators
      { input := some "image.png", contour := true, mean := true, index := true,
        output := some "out.png" } rfl).2.2.2.2 0 rfl
  cases hp
  exact hfile (fun _ => rfl)

end SeedsCli
